import Mathlib

/-!
Verification development for the AAA fundamental-analysis calculator
(`calculators/aaa_calculator.py`).

Floating-point cells are modelled as `Option ℚ`: `none` stands for a
missing value (NaN).  All arithmetic on cells propagates `none`, float
equality (`==`) is false whenever one side is NaN, and `>=` against a
threshold is false for NaN, matching IEEE comparison semantics as used
by the Python source.  DataFrames are ordered association lists from
column names to columns; exceptions are modelled with `Except String`.
-/

/-- A float cell: `none` is NaN/missing, `some q` a finite value. -/
abbrev F := Option ℚ

/-- Lift a binary rational operation to cells, propagating NaN. -/
def fBin (op : ℚ → ℚ → ℚ) : F → F → F
  | some a, some b => some (op a b)
  | _, _ => none

/-- Cell addition (NaN-propagating). -/
def fAdd : F → F → F := fBin (· + ·)

/-- Cell subtraction (NaN-propagating). -/
def fSub : F → F → F := fBin (· - ·)

/-- Cell multiplication (NaN-propagating). -/
def fMul : F → F → F := fBin (· * ·)

/-- Cell division (NaN-propagating). -/
def fDiv : F → F → F := fBin (· / ·)

/-- Float equality test: NaN compares unequal to everything (IEEE `==`). -/
def fEqF : F → F → Bool
  | some a, some b => a == b
  | _, _ => false

/-- Float `>=` against a rational threshold: false when the cell is NaN. -/
def fGe : F → ℚ → Bool
  | some a, q => decide (q ≤ a)
  | none, _ => false

/-- Embeds `AAACalculator._scale_to_10` (source lines 352-356):
`if maxe == mine: return 5.0` else `(val - mine) / (maxe - mine) * 10.0`. -/
def scale_to_10 (val mine maxe : F) : F :=
  if fEqF maxe mine then some 5
  else fMul (fDiv (fSub val mine) (fSub maxe mine)) (some 10)

/-- pandas `Series.min(skipna=True)`: minimum of the non-NaN entries,
NaN when there is none. -/
def colMin (l : List F) : F :=
  match l.filterMap id with
  | [] => none
  | x :: xs => some (xs.foldl min x)

/-- pandas `Series.max(skipna=True)`: maximum of the non-NaN entries,
NaN when there is none. -/
def colMax (l : List F) : F :=
  match l.filterMap id with
  | [] => none
  | x :: xs => some (xs.foldl max x)

/-- Grade breakpoint 9.23 (kernel-reducible normal form). -/
def bp1 : ℚ := Rat.mk' 923 100 (by decide) (by decide)

/-- Grade breakpoint 8.46. -/
def bp2 : ℚ := Rat.mk' 423 50 (by decide) (by decide)

/-- Grade breakpoint 7.69. -/
def bp3 : ℚ := Rat.mk' 769 100 (by decide) (by decide)

/-- Grade breakpoint 6.92. -/
def bp4 : ℚ := Rat.mk' 173 25 (by decide) (by decide)

/-- Grade breakpoint 6.15. -/
def bp5 : ℚ := Rat.mk' 123 20 (by decide) (by decide)

/-- Grade breakpoint 5.38. -/
def bp6 : ℚ := Rat.mk' 269 50 (by decide) (by decide)

/-- Grade breakpoint 4.61. -/
def bp7 : ℚ := Rat.mk' 461 100 (by decide) (by decide)

/-- Grade breakpoint 3.85. -/
def bp8 : ℚ := Rat.mk' 77 20 (by decide) (by decide)

/-- Grade breakpoint 3.08. -/
def bp9 : ℚ := Rat.mk' 77 25 (by decide) (by decide)

/-- Grade breakpoint 2.31. -/
def bp10 : ℚ := Rat.mk' 231 100 (by decide) (by decide)

/-- Grade breakpoint 1.54. -/
def bp11 : ℚ := Rat.mk' 77 50 (by decide) (by decide)

/-- Grade breakpoint 0.77. -/
def bp12 : ℚ := Rat.mk' 77 100 (by decide) (by decide)

/-- Embeds `AAACalculator._convert_to_grade` (source lines 335-349):
a descending chain of `>=` threshold tests; NaN fails every test. -/
def convert_to_grade (num : F) : String :=
  if fGe num bp1 then "A+"
  else if fGe num bp2 then "A"
  else if fGe num bp3 then "A-"
  else if fGe num bp4 then "B+"
  else if fGe num bp5 then "B"
  else if fGe num bp6 then "B-"
  else if fGe num bp7 then "C+"
  else if fGe num bp8 then "C"
  else if fGe num bp9 then "C-"
  else if fGe num bp10 then "D+"
  else if fGe num bp11 then "D"
  else if fGe num bp12 then "D-"
  else "F"

/-- The 13 letter grades, best to worst. -/
def grades13 : List String :=
  ["A+", "A", "A-", "B+", "B", "B-", "C+", "C", "C-", "D+", "D", "D-", "F"]

/-- Vectorised `_scale_to_10(series, series.min(), series.max())` as used
for direct metrics (source lines 204-208). -/
def scaledCol (l : List F) : List F :=
  l.map (fun v => scale_to_10 v (colMin l) (colMax l))

/-- Vectorised `10 - _scale_to_10(series, series.min(), series.max())` as
used for the inverted valuation metrics (source lines 198-202) and for
the valuation category (lines 241-245). -/
def invScaledCol (l : List F) : List F :=
  (scaledCol l).map (fun x => fSub (some 10) x)

/-- Python `str.lower()` (ASCII, as used on column names). -/
def sLower (s : String) : String := ⟨s.data.map Char.toLower⟩

/-- Python `str.startswith(p)`. -/
def strStarts (s p : String) : Bool := p.data.isPrefixOf s.data

/-- The pattern removed by `column.replace('score - ', '')`. -/
def scorePat : List Char := ['s', 'c', 'o', 'r', 'e', ' ', '-', ' ']

/-- Python `str.replace('score - ', '')`: removes every occurrence of the
eight-character pattern, scanning left to right.  When the pattern
matches, the tail is guaranteed to hold its remaining seven characters,
so the structural inner match never reaches its default arm. -/
def stripScoreAux : List Char → List Char
  | [] => []
  | ch :: rest =>
    if scorePat.isPrefixOf (ch :: rest) then
      match rest with
      | _ :: _ :: _ :: _ :: _ :: _ :: _ :: rest7 => stripScoreAux rest7
      | _ => []
    else ch :: stripScoreAux rest

/-- Python `s.replace('score - ', '')` on a string. -/
def pyReplaceScore (s : String) : String := ⟨stripScoreAux s.data⟩

/-- A DataFrame column: float dtype (scoring candidate) or object dtype
(ticker / grade strings). -/
inductive Col where
  | fcol : List F → Col
  | scol : List String → Col
deriving DecidableEq

/-- A pandas DataFrame: an ordered association list of named columns. -/
structure DataFrame where
  cols : List (String × Col)
deriving DecidableEq

/-- Column lookup `df[name]` (first match). -/
def DataFrame.getCol (df : DataFrame) (n : String) : Option Col :=
  (df.cols.find? (fun p => p.1 == n)).map Prod.snd

/-- Column assignment `df[name] = col`: replaces in place when the name
exists, appends at the end otherwise (pandas semantics). -/
def DataFrame.setCol (df : DataFrame) (n : String) (c : Col) : DataFrame :=
  if df.cols.any (fun p => p.1 == n) then
    ⟨df.cols.map (fun p => if p.1 == n then (n, c) else p)⟩
  else ⟨df.cols ++ [(n, c)]⟩

/-- `df.columns` as a list of names. -/
def DataFrame.columns (df : DataFrame) : List String := df.cols.map Prod.fst

/-- `df.empty`: true when the frame has no columns or no rows. -/
def DataFrame.empty (df : DataFrame) : Bool :=
  match df.cols with
  | [] => true
  | (_, Col.fcol v) :: _ => v.isEmpty
  | (_, Col.scol v) :: _ => v.isEmpty

/-- `df.fillna(0)` (source line 156): replaces every missing float cell
with 0. -/
def DataFrame.fillna0 (df : DataFrame) : DataFrame :=
  ⟨df.cols.map (fun p =>
    match p.2 with
    | Col.fcol v => (p.1, Col.fcol (v.map (fun x => some (x.getD 0))))
    | c => (p.1, c))⟩

/-- `df.select_dtypes(include=['float'])` iterated as column names. -/
def DataFrame.floatNames (df : DataFrame) : List String :=
  df.cols.filterMap (fun p =>
    match p.2 with
    | Col.fcol _ => some p.1
    | _ => none)

/-- The metadata exclusion list of `_set_grade` (source line 195). -/
def excludedCols : List String := ["_saved_timestamp", "_backup_timestamp"]

/-- The five inverted valuation metrics (source line 192). -/
def valuation_metrics : List String := ["fwd_p_e", "peg", "p_s", "p_b", "p_fcf"]

/-- One iteration of the scoring loop of `_set_grade` (source lines
194-208): for a float column outside the exclusion list, write the
min-max scaled score column, inverted for valuation metrics. -/
def scoreOne (df : DataFrame) (c : String) : Except String DataFrame :=
  if c ∈ excludedCols then .ok df
  else
    match df.getCol c with
    | some (Col.fcol vals) =>
      if c ∈ valuation_metrics then
        .ok (df.setCol ("score - " ++ c) (Col.fcol (invScaledCol vals)))
      else
        .ok (df.setCol ("score - " ++ sLower c) (Col.fcol (scaledCol vals)))
    | some (Col.scol _) => .error "TypeError"
    | none => .error "KeyError"

/-- One iteration of the grading loop of `_set_grade` (source lines
211-214): every `score - *` column gets an `AAA - *` grade column via
`_convert_to_grade`. -/
def gradeOne (df : DataFrame) (c : String) : Except String DataFrame :=
  if strStarts c "score - " then
    match df.getCol c with
    | some (Col.fcol vals) =>
      .ok (df.setCol ("AAA - " ++ sLower (pyReplaceScore c))
            (Col.scol (vals.map convert_to_grade)))
    | some (Col.scol _) => .error "TypeError"
    | none => .error "KeyError"
  else .ok df

/-- Embeds `AAACalculator._set_grade` (source lines 190-216).  Both loops
iterate over a snapshot of the column list taken when the loop starts,
while reading and writing the current frame. -/
def set_grade (df : DataFrame) : Except String DataFrame := do
  let df1 ← df.floatNames.foldlM scoreOne df
  df1.columns.foldlM gradeOne df1

/-- `df[name]` read as a float series; raises on a missing or
non-float column. -/
def getFCol (df : DataFrame) (n : String) : Except String (List F) :=
  match df.getCol n with
  | some (Col.fcol v) => .ok v
  | some (Col.scol _) => .error "TypeError"
  | none => .error ("KeyError: " ++ n)

/-- Elementwise series addition. -/
def serAdd (a b : List F) : List F := List.zipWith fAdd a b

/-- Series times a scalar weight. -/
def serMul (a : List F) (w : ℚ) : List F := a.map (fun x => fMul x (some w))

/-- Weighted sum of five score series, associated as in the source. -/
def wsum5 (s1 s2 s3 s4 s5 : List F) (w1 w2 w3 w4 w5 : ℚ) : List F :=
  serAdd (serAdd (serAdd (serAdd (serMul s1 w1) (serMul s2 w2)) (serMul s3 w3)) (serMul s4 w4)) (serMul s5 w5)

/-- Embeds `AAACalculator._set_valuation_grade` (source lines 229-247):
weighted sum of the five valuation metric scores, re-normalized via
`_scale_to_10` and inverted (`10 - scaled`), then graded. -/
def set_valuation_grade (df : DataFrame) (w1 w2 w3 w4 w5 : ℚ) : Except String DataFrame := do
  let s1 ← getFCol df "score - fwd_p_e"
  let s2 ← getFCol df "score - peg"
  let s3 ← getFCol df "score - p_s"
  let s4 ← getFCol df "score - p_b"
  let s5 ← getFCol df "score - p_fcf"
  let df1 := df.setCol "score - valuation" (Col.fcol (wsum5 s1 s2 s3 s4 s5 w1 w2 w3 w4 w5))
  let sv ← getFCol df1 "score - valuation"
  let scaled := invScaledCol sv
  let df2 := df1.setCol "score - valuation" (Col.fcol scaled)
  .ok (df2.setCol "AAA - valuation" (Col.scol (scaled.map convert_to_grade)))

/-- Embeds `AAACalculator._set_profitability_grade` (source lines
250-268): weighted sum re-normalized without inversion, then graded. -/
def set_profitability_grade (df : DataFrame) (w1 w2 w3 w4 w5 : ℚ) : Except String DataFrame := do
  let s1 ← getFCol df "score - profit_m"
  let s2 ← getFCol df "score - oper_m"
  let s3 ← getFCol df "score - gross_m"
  let s4 ← getFCol df "score - roe"
  let s5 ← getFCol df "score - roa"
  let df1 := df.setCol "score - profitability" (Col.fcol (wsum5 s1 s2 s3 s4 s5 w1 w2 w3 w4 w5))
  let sv ← getFCol df1 "score - profitability"
  let scaled := scaledCol sv
  let df2 := df1.setCol "score - profitability" (Col.fcol scaled)
  .ok (df2.setCol "AAA - profitability" (Col.scol (scaled.map convert_to_grade)))

/-- Embeds `AAACalculator._set_growth_grade` (source lines 271-289). -/
def set_growth_grade (df : DataFrame) (w1 w2 w3 w4 w5 : ℚ) : Except String DataFrame := do
  let s1 ← getFCol df "score - eps_this_y"
  let s2 ← getFCol df "score - eps_next_y"
  let s3 ← getFCol df "score - eps_next_5y"
  let s4 ← getFCol df "score - sales_q_q"
  let s5 ← getFCol df "score - eps_q_q"
  let df1 := df.setCol "score - growth" (Col.fcol (wsum5 s1 s2 s3 s4 s5 w1 w2 w3 w4 w5))
  let sv ← getFCol df1 "score - growth"
  let scaled := scaledCol sv
  let df2 := df1.setCol "score - growth" (Col.fcol scaled)
  .ok (df2.setCol "AAA - growth" (Col.scol (scaled.map convert_to_grade)))

/-- Embeds `AAACalculator._set_performance_grade` (source lines 292-312):
six metrics, weighted sum re-normalized without inversion. -/
def set_performance_grade (df : DataFrame) (w1 w2 w3 w4 w5 w6 : ℚ) : Except String DataFrame := do
  let s1 ← getFCol df "score - perf_month"
  let s2 ← getFCol df "score - perf_quart"
  let s3 ← getFCol df "score - perf_half"
  let s4 ← getFCol df "score - perf_year"
  let s5 ← getFCol df "score - perf_ytd"
  let s6 ← getFCol df "score - volatility_m"
  let sum6 := serAdd (wsum5 s1 s2 s3 s4 s5 w1 w2 w3 w4 w5) (serMul s6 w6)
  let df1 := df.setCol "score - performance" (Col.fcol sum6)
  let sv ← getFCol df1 "score - performance"
  let scaled := scaledCol sv
  let df2 := df1.setCol "score - performance" (Col.fcol scaled)
  .ok (df2.setCol "AAA - performance" (Col.scol (scaled.map convert_to_grade)))

/-- Weighted sum of the four category scores, associated as in the
source (lines 319-324). -/
def wsum4 (s1 s2 s3 s4 : List F) (w1 w2 w3 w4 : ℚ) : List F :=
  serAdd (serAdd (serAdd (serMul s1 w1) (serMul s2 w2)) (serMul s3 w3)) (serMul s4 w4)

/-- Embeds `AAACalculator._set_overall_rating` (source lines 315-332):
weighted sum of the four category scores, re-normalized without
inversion, then graded. -/
def set_overall_rating (df : DataFrame) (w1 w2 w3 w4 : ℚ) : Except String DataFrame := do
  let s1 ← getFCol df "score - valuation"
  let s2 ← getFCol df "score - profitability"
  let s3 ← getFCol df "score - growth"
  let s4 ← getFCol df "score - performance"
  let df1 := df.setCol "score - overall" (Col.fcol (wsum4 s1 s2 s3 s4 w1 w2 w3 w4))
  let sv ← getFCol df1 "score - overall"
  let scaled := scaledCol sv
  let df2 := df1.setCol "score - overall" (Col.fcol scaled)
  .ok (df2.setCol "AAA - overall" (Col.scol (scaled.map convert_to_grade)))

/-- Embeds `AAACalculator._make_aaa_calculation` (source lines 219-226);
every weight keeps its default value 1.0, as in the orchestrator. -/
def make_aaa_calculation (df : DataFrame) : Except String DataFrame := do
  let d1 ← set_valuation_grade df 1 1 1 1 1
  let d2 ← set_profitability_grade d1 1 1 1 1 1
  let d3 ← set_growth_grade d2 1 1 1 1 1
  let d4 ← set_performance_grade d3 1 1 1 1 1 1
  set_overall_rating d4 1 1 1 1

/-- Observable collaborator invocations of the single-item pipeline. -/
inductive Ev where
  | fetch : String → Ev
  | backup : String → Ev
  | save : String → Ev
deriving DecidableEq

/-- The three data collaborators of `run_complete_calculation`; each call
may raise (modelled as `Except.error`).  Per the spec the logger is
purely observational and is not modelled. -/
structure Collab where
  get_data : String → Except String DataFrame
  backup_data : String → Except String (Bool × String)
  save_data : DataFrame → String → Except String Bool

/-- The scoring stages of the pipeline: preprocess (`fillna(0)`), score
and grade, then the AAA aggregation (source lines 156-162). -/
def aaaOf (df : DataFrame) : Except String DataFrame :=
  (set_grade df.fillna0).bind make_aaa_calculation

/-- Body of `_calculate_and_save` inside its try block (source lines
146-182), paired with the trace of collaborator invocations.  An
`Except.error` stands for an exception reaching the handler. -/
def calcBody (c : Collab) (source destination : String) : List Ev × Except String Bool :=
  match c.get_data source with
  | .error e => ([Ev.fetch source], .error e)
  | .ok raw =>
    if raw.empty then ([Ev.fetch source], .ok false)
    else
      match aaaOf raw with
      | .error e => ([Ev.fetch source], .error e)
      | .ok aaa =>
        match c.backup_data destination with
        | .error e => ([Ev.fetch source, Ev.backup destination], .error e)
        | .ok _ =>
          match c.save_data aaa destination with
          | .error e => ([Ev.fetch source, Ev.backup destination, Ev.save destination], .error e)
          | .ok sv => ([Ev.fetch source, Ev.backup destination, Ev.save destination], .ok sv)

/-- Embeds `AAACalculator._calculate_and_save` (source lines 141-187):
the catch-all handler turns any exception into a `False` result. -/
def calculate_and_save (c : Collab) (source destination : String) : List Ev × Bool :=
  match calcBody c source destination with
  | (tr, .ok b) => (tr, b)
  | (tr, .error _) => (tr, false)

/-- The fixed default sector list (`_get_fa_sectors`, lines 73-77). -/
def fa_sectors : List String :=
  ["basicmaterials", "communicationservices", "consumercyclical",
   "consumerdefensive", "energy", "financial", "healthcare",
   "industrials", "realestate", "technology", "utilities"]

/-- The fixed index list (`_get_indexes`, lines 80-82). -/
def stock_indexes : List String :=
  ["SnP500", "MegaCap", "LargeCap", "MidCap", "SmallCap", "MicroCap"]

/-- Source identifier for one item (`f"AAA - {name}.csv"`). -/
def mkSource (s : String) : String := "AAA - " ++ s ++ ".csv"

/-- Destination identifier for one item (`f"AAA_{name}"`). -/
def mkDest (s : String) : String := "AAA_" ++ s

/-- One loop iteration shared by the sector and index phases: run the
item pipeline, collect the tag on failure. -/
def phaseStep (c : Collab) (tag : String) (acc : List Ev × List String) (item : String) : List Ev × List String :=
  let r := calculate_and_save c (mkSource item) (mkDest item)
  (acc.1 ++ r.1, acc.2 ++ if r.2 then [] else [tag ++ item])

/-- Embeds `AAACalculator._calculate_for_sectors` (source lines 85-104):
iterates the caller-supplied list, or the default sector list when
`sectors is None`, collecting `f"Sector {sector}"` per failed item. -/
def calculate_for_sectors (c : Collab) (sectors : Option (List String)) : List Ev × List String :=
  let secs := match sectors with
    | none => fa_sectors
    | some l => l
  secs.foldl (phaseStep c "Sector ") ([], [])

/-- Embeds `AAACalculator._calculate_for_indexes` (source lines 107-124),
collecting `f"Index {index}"` per failed item. -/
def calculate_for_indexes (c : Collab) : List Ev × List String :=
  stock_indexes.foldl (phaseStep c "Index ") ([], [])

/-- Embeds `AAACalculator._calculate_for_all` (source lines 127-138). -/
def calculate_for_all (c : Collab) : List Ev × Bool :=
  calculate_and_save c (mkSource "all") (mkDest "all")

/-- Embeds `AAACalculator.run_complete_calculation` (source lines 26-59):
three phases in fixed order, each error list prefixed and concatenated.
The surrounding try/except of lines 35-57 is unreachable here: every
collaborator exception is already absorbed inside
`calculate_and_save`, so the phases are total and the function returns
its accumulated error strings. -/
def run_complete_calculation (c : Collab) (sources : Option (List String)) : List Ev × List String :=
  let r1 := calculate_for_sectors c sources
  let errs1 := r1.2.map (fun e => "Sector error: " ++ e)
  let r2 := calculate_for_indexes c
  let errs2 := errs1 ++ r2.2.map (fun e => "Index error: " ++ e)
  let r3 := calculate_for_all c
  let errs3 := errs2 ++ (if r3.2 then [] else ["All data calculation failed"])
  (r1.1 ++ r2.1 ++ r3.1, errs3)

/-- Projection of fetch events out of a trace. -/
def evFetch : Ev → Option String
  | Ev.fetch s => some s
  | _ => none

/-- Witness for C5: a data source that always raises yields a `False`
item result with only the fetch attempted. -/
def c5collab : Collab :=
  ⟨fun _ => .error "boom", fun _ => .ok (true, ""), fun _ _ => .ok true⟩

/-- Witness for C6: a source returning the empty frame. -/
def c6collab : Collab :=
  ⟨fun _ => .ok ⟨[]⟩, fun _ => .ok (true, ""), fun _ _ => .ok true⟩

/-- A single-row metrics table holding every scoring-candidate column,
used to drive the full pipeline in the C7 witness. -/
def c7df : DataFrame :=
  ⟨[("fwd_p_e", Col.fcol [some 1]), ("peg", Col.fcol [some 1]), ("p_s", Col.fcol [some 1]),
    ("p_b", Col.fcol [some 1]), ("p_fcf", Col.fcol [some 1]),
    ("profit_m", Col.fcol [some 1]), ("oper_m", Col.fcol [some 1]), ("gross_m", Col.fcol [some 1]),
    ("roe", Col.fcol [some 1]), ("roa", Col.fcol [some 1]),
    ("eps_this_y", Col.fcol [some 1]), ("eps_next_y", Col.fcol [some 1]),
    ("eps_next_5y", Col.fcol [some 1]), ("sales_q_q", Col.fcol [some 1]),
    ("eps_q_q", Col.fcol [some 1]),
    ("perf_month", Col.fcol [some 1]), ("perf_quart", Col.fcol [some 1]),
    ("perf_half", Col.fcol [some 1]), ("perf_year", Col.fcol [some 1]),
    ("perf_ytd", Col.fcol [some 1]), ("volatility_m", Col.fcol [some 1])]⟩

/-- The graded table the pipeline computes from `c7df`. -/
def c7aaa : DataFrame := ((aaaOf c7df).toOption).getD ⟨[]⟩

/-- Collaborators for the C7 witness: fetch succeeds, backup reports
failure, the saver returns false. -/
def c7collab : Collab :=
  ⟨fun _ => .ok c7df, fun _ => .ok (false, "disk full"), fun _ _ => .ok false⟩

/-- List-level lookup underlying `DataFrame.getCol`. -/
def lookupC (L : List (String × Col)) (n : String) : Option Col :=
  (L.find? (fun p => p.1 == n)).map Prod.snd

/-- List-level name-membership test underlying `DataFrame.setCol`. -/
def nameBound (L : List (String × Col)) (n : String) : Bool :=
  L.any (fun p => p.1 == n)

/-- Occurrence test for the pattern `"score - "` anywhere in a name. -/
def containsScorePat : List Char → Bool
  | [] => false
  | ch :: rest => scorePat.isPrefixOf (ch :: rest) || containsScorePat rest

/-- The pattern of `"AAA - "` as an explicit character list. -/
def aaaPat : List Char := ['A', 'A', 'A', ' ', '-', ' ']

/-- Well-formedness of one raw input column binding: its name holds no
occurrence of `"score - "`, does not start with `"AAA - "`, and is
already lowercase — satisfied by the fixed schema of the source. -/
def GoodBase (p : String × Col) : Prop :=
  containsScorePat p.1.data = false ∧ strStarts p.1 "AAA - " = false ∧ sLower p.1 = p.1

/-- Well-formedness of the suffix of a derived column name. -/
def GoodSuffix (c0 : String) : Prop :=
  c0 ≠ "_saved_timestamp" ∧ c0 ≠ "_backup_timestamp"
    ∧ containsScorePat c0.data = false ∧ sLower c0 = c0

/-- Shape of all columns the pipeline appends past the raw table: score
columns are floats named `score - c0`, grade columns are grade strings
obtained via `convert_to_grade` and named `AAA - g0`, and neither
suffix is a metadata name. -/
def ExtraOK (extra : List (String × Col)) : Prop :=
  ∀ p ∈ extra,
    (∃ c0 l, p.1 = "score - " ++ c0 ∧ GoodSuffix c0 ∧ p.2 = Col.fcol l)
    ∨ (∃ g0 l, p.1 = "AAA - " ++ g0 ∧ GoodSuffix g0
        ∧ p.2 = Col.scol (List.map convert_to_grade l))

/-- The ten column names written by the aggregation stage. -/
def aggNames : List String :=
  ["score - valuation", "AAA - valuation", "score - profitability", "AAA - profitability",
   "score - growth", "AAA - growth", "score - performance", "AAA - performance",
   "score - overall", "AAA - overall"]

instance (p : String × Col) : Decidable (GoodBase p) := by
  unfold GoodBase
  infer_instance

/-- A one-row column of value 1, used by concrete witnesses. -/
def oneColF : List F := [some 1]

/-- Concrete one-row schema table for the C1 witness. -/
def c1df : DataFrame :=
  ⟨[("ticker", Col.scol ["AAPL"]),
    ("fwd_p_e", Col.fcol oneColF), ("peg", Col.fcol oneColF), ("p_s", Col.fcol oneColF),
    ("p_b", Col.fcol oneColF), ("p_fcf", Col.fcol oneColF),
    ("profit_m", Col.fcol oneColF), ("oper_m", Col.fcol oneColF), ("gross_m", Col.fcol oneColF),
    ("roe", Col.fcol oneColF), ("roa", Col.fcol oneColF),
    ("eps_this_y", Col.fcol oneColF), ("eps_next_y", Col.fcol oneColF),
    ("eps_next_5y", Col.fcol oneColF), ("sales_q_q", Col.fcol oneColF),
    ("eps_q_q", Col.fcol oneColF),
    ("perf_month", Col.fcol oneColF), ("perf_quart", Col.fcol oneColF),
    ("perf_half", Col.fcol oneColF), ("perf_year", Col.fcol oneColF),
    ("perf_ytd", Col.fcol oneColF), ("volatility_m", Col.fcol oneColF),
    ("_saved_timestamp", Col.fcol oneColF), ("_backup_timestamp", Col.fcol oneColF)]⟩

/-- Concrete one-row schema table for the C9 witness. -/
def c9df : DataFrame :=
  ⟨[("ticker", Col.scol ["MSFT"]),
    ("fwd_p_e", Col.fcol oneColF), ("peg", Col.fcol oneColF), ("p_s", Col.fcol oneColF),
    ("p_b", Col.fcol oneColF), ("p_fcf", Col.fcol oneColF),
    ("profit_m", Col.fcol oneColF), ("oper_m", Col.fcol oneColF), ("gross_m", Col.fcol oneColF),
    ("roe", Col.fcol oneColF), ("roa", Col.fcol oneColF),
    ("eps_this_y", Col.fcol oneColF), ("eps_next_y", Col.fcol oneColF),
    ("eps_next_5y", Col.fcol oneColF), ("sales_q_q", Col.fcol oneColF),
    ("eps_q_q", Col.fcol oneColF),
    ("perf_month", Col.fcol oneColF), ("perf_quart", Col.fcol oneColF),
    ("perf_half", Col.fcol oneColF), ("perf_year", Col.fcol oneColF),
    ("perf_ytd", Col.fcol oneColF), ("volatility_m", Col.fcol oneColF),
    ("_saved_timestamp", Col.fcol oneColF), ("_backup_timestamp", Col.fcol oneColF)]⟩

/-- Concrete one-row schema table for the C10 witness. -/
def c10df : DataFrame :=
  ⟨[("ticker", Col.scol ["NVDA"]),
    ("fwd_p_e", Col.fcol oneColF), ("peg", Col.fcol oneColF), ("p_s", Col.fcol oneColF),
    ("p_b", Col.fcol oneColF), ("p_fcf", Col.fcol oneColF),
    ("profit_m", Col.fcol oneColF), ("oper_m", Col.fcol oneColF), ("gross_m", Col.fcol oneColF),
    ("roe", Col.fcol oneColF), ("roa", Col.fcol oneColF),
    ("eps_this_y", Col.fcol oneColF), ("eps_next_y", Col.fcol oneColF),
    ("eps_next_5y", Col.fcol oneColF), ("sales_q_q", Col.fcol oneColF),
    ("eps_q_q", Col.fcol oneColF),
    ("perf_month", Col.fcol oneColF), ("perf_quart", Col.fcol oneColF),
    ("perf_half", Col.fcol oneColF), ("perf_year", Col.fcol oneColF),
    ("perf_ytd", Col.fcol oneColF), ("volatility_m", Col.fcol oneColF),
    ("_saved_timestamp", Col.fcol oneColF), ("_backup_timestamp", Col.fcol oneColF)]⟩

/-! ## Helper lemmas about the scoring primitives -/

/-- Unfold a `Rat.mk'` constant to a division of numerals. -/
lemma mkq_eq (n : ℤ) (d : ℕ) (h1 : d ≠ 0) (h2 : n.natAbs.Coprime d) :
    (Rat.mk' n d h1 h2 : ℚ) = (n : ℚ) / (d : ℚ) := by
  rw [Rat.mk'_eq_divInt, Rat.divInt_eq_div]
  norm_num

lemma fGe_some (a q : ℚ) : fGe (some a) q = decide (q ≤ a) := rfl

/-- `_scale_to_10` on finite inputs with distinct bounds is the linear
rescale. -/
lemma scale_some_of_ne (v m M : ℚ) (h : m ≠ M) :
    scale_to_10 (some v) (some m) (some M) = some ((v - m) / (M - m) * 10) := by
  have hb : (M == m) = false := beq_eq_false_iff_ne.mpr (Ne.symm h)
  simp only [scale_to_10, fEqF, hb]
  rfl

lemma bp_eq_1 : bp1 = 923 / 100 := by rw [bp1, mkq_eq]; norm_num

lemma bp_eq_2 : bp2 = 846 / 100 := by rw [bp2, mkq_eq]; norm_num

lemma bp_eq_3 : bp3 = 769 / 100 := by rw [bp3, mkq_eq]; norm_num

lemma bp_eq_4 : bp4 = 692 / 100 := by rw [bp4, mkq_eq]; norm_num

lemma bp_eq_5 : bp5 = 615 / 100 := by rw [bp5, mkq_eq]; norm_num

lemma bp_eq_6 : bp6 = 538 / 100 := by rw [bp6, mkq_eq]; norm_num

lemma bp_eq_7 : bp7 = 461 / 100 := by rw [bp7, mkq_eq]; norm_num

lemma bp_eq_8 : bp8 = 385 / 100 := by rw [bp8, mkq_eq]; norm_num

lemma bp_eq_9 : bp9 = 308 / 100 := by rw [bp9, mkq_eq]; norm_num

lemma bp_eq_10 : bp10 = 231 / 100 := by rw [bp10, mkq_eq]; norm_num

lemma bp_eq_11 : bp11 = 154 / 100 := by rw [bp11, mkq_eq]; norm_num

lemma bp_eq_12 : bp12 = 77 / 100 := by rw [bp12, mkq_eq]; norm_num

/-- Bin lemma: value at or above the top breakpoint grades `A+`. -/
lemma grade_bin_top (q : ℚ) (h1 : bp1 ≤ q) : convert_to_grade (some q) = "A+" := by
  simp only [convert_to_grade, fGe_some, decide_eq_true_eq]
  rw [if_pos h1]

lemma grade_bin_2 (q : ℚ) (h1 : bp2 ≤ q) (h2 : q < bp1) : convert_to_grade (some q) = "A" := by
  simp only [convert_to_grade, fGe_some, decide_eq_true_eq]
  rw [if_neg (not_le.mpr h2), if_pos h1]

lemma grade_bin_3 (q : ℚ) (h1 : bp3 ≤ q) (h2 : q < bp2) : convert_to_grade (some q) = "A-" := by
  simp only [convert_to_grade, fGe_some, decide_eq_true_eq]
  rw [if_neg (not_le.mpr (lt_of_lt_of_le h2 (by decide))), if_neg (not_le.mpr h2), if_pos h1]

lemma grade_bin_4 (q : ℚ) (h1 : bp4 ≤ q) (h2 : q < bp3) : convert_to_grade (some q) = "B+" := by
  simp only [convert_to_grade, fGe_some, decide_eq_true_eq]
  rw [if_neg (not_le.mpr (lt_of_lt_of_le h2 (by decide))),
    if_neg (not_le.mpr (lt_of_lt_of_le h2 (by decide))), if_neg (not_le.mpr h2), if_pos h1]

lemma grade_bin_5 (q : ℚ) (h1 : bp5 ≤ q) (h2 : q < bp4) : convert_to_grade (some q) = "B" := by
  simp only [convert_to_grade, fGe_some, decide_eq_true_eq]
  rw [if_neg (not_le.mpr (lt_of_lt_of_le h2 (by decide))),
    if_neg (not_le.mpr (lt_of_lt_of_le h2 (by decide))),
    if_neg (not_le.mpr (lt_of_lt_of_le h2 (by decide))), if_neg (not_le.mpr h2), if_pos h1]

lemma grade_bin_6 (q : ℚ) (h1 : bp6 ≤ q) (h2 : q < bp5) : convert_to_grade (some q) = "B-" := by
  simp only [convert_to_grade, fGe_some, decide_eq_true_eq]
  rw [if_neg (not_le.mpr (lt_of_lt_of_le h2 (by decide))),
    if_neg (not_le.mpr (lt_of_lt_of_le h2 (by decide))),
    if_neg (not_le.mpr (lt_of_lt_of_le h2 (by decide))),
    if_neg (not_le.mpr (lt_of_lt_of_le h2 (by decide))), if_neg (not_le.mpr h2), if_pos h1]

lemma grade_bin_7 (q : ℚ) (h1 : bp7 ≤ q) (h2 : q < bp6) : convert_to_grade (some q) = "C+" := by
  simp only [convert_to_grade, fGe_some, decide_eq_true_eq]
  rw [if_neg (not_le.mpr (lt_of_lt_of_le h2 (by decide))),
    if_neg (not_le.mpr (lt_of_lt_of_le h2 (by decide))),
    if_neg (not_le.mpr (lt_of_lt_of_le h2 (by decide))),
    if_neg (not_le.mpr (lt_of_lt_of_le h2 (by decide))),
    if_neg (not_le.mpr (lt_of_lt_of_le h2 (by decide))), if_neg (not_le.mpr h2), if_pos h1]

lemma grade_bin_8 (q : ℚ) (h1 : bp8 ≤ q) (h2 : q < bp7) : convert_to_grade (some q) = "C" := by
  simp only [convert_to_grade, fGe_some, decide_eq_true_eq]
  rw [if_neg (not_le.mpr (lt_of_lt_of_le h2 (by decide))),
    if_neg (not_le.mpr (lt_of_lt_of_le h2 (by decide))),
    if_neg (not_le.mpr (lt_of_lt_of_le h2 (by decide))),
    if_neg (not_le.mpr (lt_of_lt_of_le h2 (by decide))),
    if_neg (not_le.mpr (lt_of_lt_of_le h2 (by decide))),
    if_neg (not_le.mpr (lt_of_lt_of_le h2 (by decide))), if_neg (not_le.mpr h2), if_pos h1]

lemma grade_bin_9 (q : ℚ) (h1 : bp9 ≤ q) (h2 : q < bp8) : convert_to_grade (some q) = "C-" := by
  simp only [convert_to_grade, fGe_some, decide_eq_true_eq]
  rw [if_neg (not_le.mpr (lt_of_lt_of_le h2 (by decide))),
    if_neg (not_le.mpr (lt_of_lt_of_le h2 (by decide))),
    if_neg (not_le.mpr (lt_of_lt_of_le h2 (by decide))),
    if_neg (not_le.mpr (lt_of_lt_of_le h2 (by decide))),
    if_neg (not_le.mpr (lt_of_lt_of_le h2 (by decide))),
    if_neg (not_le.mpr (lt_of_lt_of_le h2 (by decide))),
    if_neg (not_le.mpr (lt_of_lt_of_le h2 (by decide))), if_neg (not_le.mpr h2), if_pos h1]

lemma grade_bin_10 (q : ℚ) (h1 : bp10 ≤ q) (h2 : q < bp9) : convert_to_grade (some q) = "D+" := by
  simp only [convert_to_grade, fGe_some, decide_eq_true_eq]
  rw [if_neg (not_le.mpr (lt_of_lt_of_le h2 (by decide))),
    if_neg (not_le.mpr (lt_of_lt_of_le h2 (by decide))),
    if_neg (not_le.mpr (lt_of_lt_of_le h2 (by decide))),
    if_neg (not_le.mpr (lt_of_lt_of_le h2 (by decide))),
    if_neg (not_le.mpr (lt_of_lt_of_le h2 (by decide))),
    if_neg (not_le.mpr (lt_of_lt_of_le h2 (by decide))),
    if_neg (not_le.mpr (lt_of_lt_of_le h2 (by decide))),
    if_neg (not_le.mpr (lt_of_lt_of_le h2 (by decide))), if_neg (not_le.mpr h2), if_pos h1]

lemma grade_bin_11 (q : ℚ) (h1 : bp11 ≤ q) (h2 : q < bp10) : convert_to_grade (some q) = "D" := by
  simp only [convert_to_grade, fGe_some, decide_eq_true_eq]
  rw [if_neg (not_le.mpr (lt_of_lt_of_le h2 (by decide))),
    if_neg (not_le.mpr (lt_of_lt_of_le h2 (by decide))),
    if_neg (not_le.mpr (lt_of_lt_of_le h2 (by decide))),
    if_neg (not_le.mpr (lt_of_lt_of_le h2 (by decide))),
    if_neg (not_le.mpr (lt_of_lt_of_le h2 (by decide))),
    if_neg (not_le.mpr (lt_of_lt_of_le h2 (by decide))),
    if_neg (not_le.mpr (lt_of_lt_of_le h2 (by decide))),
    if_neg (not_le.mpr (lt_of_lt_of_le h2 (by decide))),
    if_neg (not_le.mpr (lt_of_lt_of_le h2 (by decide))), if_neg (not_le.mpr h2), if_pos h1]

lemma grade_bin_12 (q : ℚ) (h1 : bp12 ≤ q) (h2 : q < bp11) : convert_to_grade (some q) = "D-" := by
  simp only [convert_to_grade, fGe_some, decide_eq_true_eq]
  rw [if_neg (not_le.mpr (lt_of_lt_of_le h2 (by decide))),
    if_neg (not_le.mpr (lt_of_lt_of_le h2 (by decide))),
    if_neg (not_le.mpr (lt_of_lt_of_le h2 (by decide))),
    if_neg (not_le.mpr (lt_of_lt_of_le h2 (by decide))),
    if_neg (not_le.mpr (lt_of_lt_of_le h2 (by decide))),
    if_neg (not_le.mpr (lt_of_lt_of_le h2 (by decide))),
    if_neg (not_le.mpr (lt_of_lt_of_le h2 (by decide))),
    if_neg (not_le.mpr (lt_of_lt_of_le h2 (by decide))),
    if_neg (not_le.mpr (lt_of_lt_of_le h2 (by decide))),
    if_neg (not_le.mpr (lt_of_lt_of_le h2 (by decide))), if_neg (not_le.mpr h2), if_pos h1]

lemma grade_bin_bot (q : ℚ) (h2 : q < bp12) : convert_to_grade (some q) = "F" := by
  simp only [convert_to_grade, fGe_some, decide_eq_true_eq]
  rw [if_neg (not_le.mpr (lt_of_lt_of_le h2 (by decide))),
    if_neg (not_le.mpr (lt_of_lt_of_le h2 (by decide))),
    if_neg (not_le.mpr (lt_of_lt_of_le h2 (by decide))),
    if_neg (not_le.mpr (lt_of_lt_of_le h2 (by decide))),
    if_neg (not_le.mpr (lt_of_lt_of_le h2 (by decide))),
    if_neg (not_le.mpr (lt_of_lt_of_le h2 (by decide))),
    if_neg (not_le.mpr (lt_of_lt_of_le h2 (by decide))),
    if_neg (not_le.mpr (lt_of_lt_of_le h2 (by decide))),
    if_neg (not_le.mpr (lt_of_lt_of_le h2 (by decide))),
    if_neg (not_le.mpr (lt_of_lt_of_le h2 (by decide))),
    if_neg (not_le.mpr (lt_of_lt_of_le h2 (by decide))), if_neg (not_le.mpr h2)]

/-- Every output of `convert_to_grade` is one of the 13 grades. -/
lemma convert_total (x : F) : convert_to_grade x ∈ grades13 := by
  cases x with
  | none => decide
  | some q =>
    rcases le_or_lt bp1 q with h1 | h1
    · rw [grade_bin_top q h1]; decide
    rcases le_or_lt bp2 q with h2 | h2
    · rw [grade_bin_2 q h2 h1]; decide
    rcases le_or_lt bp3 q with h3 | h3
    · rw [grade_bin_3 q h3 h2]; decide
    rcases le_or_lt bp4 q with h4 | h4
    · rw [grade_bin_4 q h4 h3]; decide
    rcases le_or_lt bp5 q with h5 | h5
    · rw [grade_bin_5 q h5 h4]; decide
    rcases le_or_lt bp6 q with h6 | h6
    · rw [grade_bin_6 q h6 h5]; decide
    rcases le_or_lt bp7 q with h7 | h7
    · rw [grade_bin_7 q h7 h6]; decide
    rcases le_or_lt bp8 q with h8 | h8
    · rw [grade_bin_8 q h8 h7]; decide
    rcases le_or_lt bp9 q with h9 | h9
    · rw [grade_bin_9 q h9 h8]; decide
    rcases le_or_lt bp10 q with h10 | h10
    · rw [grade_bin_10 q h10 h9]; decide
    rcases le_or_lt bp11 q with h11 | h11
    · rw [grade_bin_11 q h11 h10]; decide
    rcases le_or_lt bp12 q with h12 | h12
    · rw [grade_bin_12 q h12 h11]; decide
    rw [grade_bin_bot q h12]; decide

/-! ## Claim C2 -/

/-- C2: `convert_to_grade` maps every score to exactly one of the 13
grades, using exactly the breakpoints 9.23, 8.46, 7.69, 6.92, 6.15,
5.38, 4.61, 3.85, 3.08, 2.31, 1.54, 0.77 (descending, else F); each bin
is lower-inclusive so every listed breakpoint input maps to the grade at
or above that threshold, 9.22999 maps to "A" (the next grade down from
A+), 10.0 maps to "A+", and 0.0 and every negative input map to "F". -/
theorem claim_C2 :
    (∀ x : F, convert_to_grade x ∈ grades13)
    ∧ (bp1 = 923/100 ∧ bp2 = 846/100 ∧ bp3 = 769/100 ∧ bp4 = 692/100
       ∧ bp5 = 615/100 ∧ bp6 = 538/100 ∧ bp7 = 461/100 ∧ bp8 = 385/100
       ∧ bp9 = 308/100 ∧ bp10 = 231/100 ∧ bp11 = 154/100 ∧ bp12 = 77/100)
    ∧ (∀ q : ℚ, bp1 ≤ q → convert_to_grade (some q) = "A+")
    ∧ (∀ q : ℚ, bp2 ≤ q → q < bp1 → convert_to_grade (some q) = "A")
    ∧ (∀ q : ℚ, bp3 ≤ q → q < bp2 → convert_to_grade (some q) = "A-")
    ∧ (∀ q : ℚ, bp4 ≤ q → q < bp3 → convert_to_grade (some q) = "B+")
    ∧ (∀ q : ℚ, bp5 ≤ q → q < bp4 → convert_to_grade (some q) = "B")
    ∧ (∀ q : ℚ, bp6 ≤ q → q < bp5 → convert_to_grade (some q) = "B-")
    ∧ (∀ q : ℚ, bp7 ≤ q → q < bp6 → convert_to_grade (some q) = "C+")
    ∧ (∀ q : ℚ, bp8 ≤ q → q < bp7 → convert_to_grade (some q) = "C")
    ∧ (∀ q : ℚ, bp9 ≤ q → q < bp8 → convert_to_grade (some q) = "C-")
    ∧ (∀ q : ℚ, bp10 ≤ q → q < bp9 → convert_to_grade (some q) = "D+")
    ∧ (∀ q : ℚ, bp11 ≤ q → q < bp10 → convert_to_grade (some q) = "D")
    ∧ (∀ q : ℚ, bp12 ≤ q → q < bp11 → convert_to_grade (some q) = "D-")
    ∧ (∀ q : ℚ, q < bp12 → convert_to_grade (some q) = "F")
    ∧ (convert_to_grade (some (923/100)) = "A+"
       ∧ convert_to_grade (some (846/100)) = "A"
       ∧ convert_to_grade (some (769/100)) = "A-"
       ∧ convert_to_grade (some (692/100)) = "B+"
       ∧ convert_to_grade (some (615/100)) = "B"
       ∧ convert_to_grade (some (538/100)) = "B-"
       ∧ convert_to_grade (some (461/100)) = "C+"
       ∧ convert_to_grade (some (385/100)) = "C"
       ∧ convert_to_grade (some (308/100)) = "C-"
       ∧ convert_to_grade (some (231/100)) = "D+"
       ∧ convert_to_grade (some (154/100)) = "D"
       ∧ convert_to_grade (some (77/100)) = "D-")
    ∧ convert_to_grade (some (922999/100000)) = "A"
    ∧ convert_to_grade (some 10) = "A+"
    ∧ convert_to_grade (some 0) = "F"
    ∧ (∀ q : ℚ, q < 0 → convert_to_grade (some q) = "F") := by
  refine ⟨convert_total,
    ⟨bp_eq_1, bp_eq_2, bp_eq_3, bp_eq_4, bp_eq_5, bp_eq_6, bp_eq_7, bp_eq_8,
     bp_eq_9, bp_eq_10, bp_eq_11, bp_eq_12⟩,
    grade_bin_top, grade_bin_2, grade_bin_3, grade_bin_4, grade_bin_5, grade_bin_6,
    grade_bin_7, grade_bin_8, grade_bin_9, grade_bin_10, grade_bin_11, grade_bin_12,
    grade_bin_bot,
    ⟨?_, ?_, ?_, ?_, ?_, ?_, ?_, ?_, ?_, ?_, ?_, ?_⟩, ?_, ?_, ?_, ?_⟩
  · rw [← bp_eq_1]; exact grade_bin_top bp1 le_rfl
  · rw [← bp_eq_2]; exact grade_bin_2 bp2 le_rfl (by decide)
  · rw [← bp_eq_3]; exact grade_bin_3 bp3 le_rfl (by decide)
  · rw [← bp_eq_4]; exact grade_bin_4 bp4 le_rfl (by decide)
  · rw [← bp_eq_5]; exact grade_bin_5 bp5 le_rfl (by decide)
  · rw [← bp_eq_6]; exact grade_bin_6 bp6 le_rfl (by decide)
  · rw [← bp_eq_7]; exact grade_bin_7 bp7 le_rfl (by decide)
  · rw [← bp_eq_8]; exact grade_bin_8 bp8 le_rfl (by decide)
  · rw [← bp_eq_9]; exact grade_bin_9 bp9 le_rfl (by decide)
  · rw [← bp_eq_10]; exact grade_bin_10 bp10 le_rfl (by decide)
  · rw [← bp_eq_11]; exact grade_bin_11 bp11 le_rfl (by decide)
  · rw [← bp_eq_12]; exact grade_bin_12 bp12 le_rfl (by decide)
  · exact grade_bin_2 _ (by rw [bp_eq_2]; norm_num) (by rw [bp_eq_1]; norm_num)
  · exact grade_bin_top 10 (by decide)
  · exact grade_bin_bot 0 (by decide)
  · intro q h
    exact grade_bin_bot q (lt_trans h (by decide))

/-- Witness for C2: the "A" bin applied at the concrete score 9. -/
theorem claim_C2_witness : convert_to_grade (some 9) = "A" :=
  claim_C2.2.2.2.1 9 (by decide) (by decide)

/-! ## Claim C3 -/

/-- C3: `scale_to_10` returns 5.0 for every value (missing included)
whenever min equals max; a missing min or max propagates to a missing
output instead of raising; otherwise the result is the linear rescale
`(value - min) / (max - min) * 10`. -/
theorem claim_C3 :
    (∀ (v : F) (m : ℚ), scale_to_10 v (some m) (some m) = some 5)
    ∧ (∀ (v mx : F), scale_to_10 v none mx = none)
    ∧ (∀ (v mn : F), scale_to_10 v mn none = none)
    ∧ (∀ v m M : ℚ, m ≠ M →
        scale_to_10 (some v) (some m) (some M) = some ((v - m) / (M - m) * 10)) := by
  refine ⟨?_, ?_, ?_, ?_⟩
  · intro v m
    simp [scale_to_10, fEqF]
  · intro v mx
    cases v <;> cases mx <;> rfl
  · intro v mn
    cases v <;> cases mn <;> rfl
  · intro v m M h
    exact scale_some_of_ne v m M h

/-- Witness for C3: the non-degenerate rescale applied at 7 over the
interval from 2 to 4. -/
theorem claim_C3_witness :
    scale_to_10 (some 7) (some 2) (some 4) = some ((7 - 2) / (4 - 2) * 10) :=
  claim_C3.2.2.2 7 2 4 (by norm_num)

/-! ## Claim C8 -/

/-- C8: for a column with min strictly below max, the score of any
in-range value lies in the interval from 0 to 10; the direct score is
monotone non-decreasing in the raw value and the inverted score
`10 - scale_to_10 ...` used for the five valuation metrics is monotone
non-increasing, and also lies in the interval from 0 to 10. -/
theorem claim_C8 (m M v w : ℚ) (hmM : m < M) (hmv : m ≤ v) (hvM : v ≤ M)
    (hmw : m ≤ w) (hwM : w ≤ M) (hvw : v ≤ w) :
    scale_to_10 (some v) (some m) (some M) = some ((v - m) / (M - m) * 10)
    ∧ 0 ≤ (v - m) / (M - m) * 10
    ∧ (v - m) / (M - m) * 10 ≤ 10
    ∧ (v - m) / (M - m) * 10 ≤ (w - m) / (M - m) * 10
    ∧ fSub (some 10) (scale_to_10 (some v) (some m) (some M))
        = some (10 - (v - m) / (M - m) * 10)
    ∧ 10 - (w - m) / (M - m) * 10 ≤ 10 - (v - m) / (M - m) * 10
    ∧ 0 ≤ 10 - (v - m) / (M - m) * 10
    ∧ 10 - (v - m) / (M - m) * 10 ≤ 10 := by
  have hpos : 0 < M - m := by linarith
  have hv0 : 0 ≤ (v - m) / (M - m) := div_nonneg (by linarith) hpos.le
  have hv1 : (v - m) / (M - m) ≤ 1 := (div_le_one hpos).2 (by linarith)
  have hmono : (v - m) / (M - m) ≤ (w - m) / (M - m) :=
    div_le_div_of_nonneg_right (by linarith) hpos.le
  refine ⟨scale_some_of_ne v m M hmM.ne, by nlinarith, by nlinarith, by nlinarith,
    ?_, by nlinarith, by nlinarith, by nlinarith⟩
  rw [scale_some_of_ne v m M hmM.ne]
  rfl

/-- Witness for C8: the bounds and monotonicity at min 0, max 10,
values 2 and 3. -/
theorem claim_C8_witness :
    scale_to_10 (some 2) (some 0) (some 10) = some (((2 : ℚ) - 0) / (10 - 0) * 10)
    ∧ 0 ≤ ((2 : ℚ) - 0) / (10 - 0) * 10
    ∧ ((2 : ℚ) - 0) / (10 - 0) * 10 ≤ 10
    ∧ ((2 : ℚ) - 0) / (10 - 0) * 10 ≤ ((3 : ℚ) - 0) / (10 - 0) * 10
    ∧ fSub (some 10) (scale_to_10 (some 2) (some 0) (some 10))
        = some (10 - ((2 : ℚ) - 0) / (10 - 0) * 10)
    ∧ 10 - ((3 : ℚ) - 0) / (10 - 0) * 10 ≤ 10 - ((2 : ℚ) - 0) / (10 - 0) * 10
    ∧ 0 ≤ 10 - ((2 : ℚ) - 0) / (10 - 0) * 10
    ∧ 10 - ((2 : ℚ) - 0) / (10 - 0) * 10 ≤ 10 :=
  claim_C8 0 10 2 3 (by norm_num) (by norm_num) (by norm_num) (by norm_num)
    (by norm_num) (by norm_num)

/-! ## Orchestration lemmas -/

/-- Whatever the collaborators do, one pipeline run fetches exactly its
source, once. -/
lemma item_fetch_trace (c : Collab) (s d : String) :
    (calculate_and_save c s d).1.filterMap evFetch = [s] := by
  unfold calculate_and_save calcBody
  cases hg : c.get_data s with
  | error e => simp [evFetch]
  | ok raw =>
    cases he : raw.empty with
    | true => simp [he, evFetch]
    | false =>
      cases ha : aaaOf raw with
      | error e => simp [he, ha, evFetch]
      | ok aaa =>
        cases hb : c.backup_data d with
        | error e => simp [he, ha, hb, evFetch]
        | ok pr =>
          cases hs : c.save_data aaa d with
          | error e => simp [he, ha, hb, hs, evFetch]
          | ok sv => simp [he, ha, hb, hs, evFetch]

/-- A sector/index phase fetches exactly its item list, in order. -/
lemma phase_fetch_trace (c : Collab) (tag : String) (l : List String) :
    ∀ acc : List Ev × List String,
      ((l.foldl (phaseStep c tag) acc).1).filterMap evFetch
        = acc.1.filterMap evFetch ++ l.map mkSource := by
  induction l with
  | nil => intro acc; simp
  | cons x rest ih =>
    intro acc
    rw [List.foldl_cons, ih]
    unfold phaseStep
    simp [List.filterMap_append, item_fetch_trace]

/-- A phase collects no error string exactly when every one of its items
succeeded. -/
lemma phase_errors_nil (c : Collab) (tag : String) (l : List String) :
    ∀ acc : List Ev × List String,
      ((l.foldl (phaseStep c tag) acc).2 = []
        ↔ acc.2 = [] ∧ l.all (fun x => (calculate_and_save c (mkSource x) (mkDest x)).2) = true) := by
  induction l with
  | nil => intro acc; simp
  | cons x rest ih =>
    intro acc
    rw [List.foldl_cons, ih]
    unfold phaseStep
    cases hr : (calculate_and_save c (mkSource x) (mkDest x)).2 with
    | true => simp [hr, and_assoc]
    | false => simp [hr]

/-! ## Claim C4 -/

/-- C4: whatever the three data collaborators do — including raising
exceptions inside the sector or index phase items — the orchestrator
attempts the sector phase over its list, then the index phase, then the
single all-data item, in that fixed order: the fetch trace is exactly
the three phases' source lists concatenated. -/
theorem claim_C4 (c : Collab) (sources : Option (List String)) :
    (run_complete_calculation c sources).1.filterMap evFetch
      = (match sources with
          | none => fa_sectors
          | some l => l).map mkSource
        ++ stock_indexes.map mkSource ++ [mkSource "all"] := by
  cases sources with
  | none =>
    unfold run_complete_calculation calculate_for_sectors calculate_for_indexes calculate_for_all
    simp [List.filterMap_append, phase_fetch_trace, item_fetch_trace]
  | some l =>
    unfold run_complete_calculation calculate_for_sectors calculate_for_indexes calculate_for_all
    simp [List.filterMap_append, phase_fetch_trace, item_fetch_trace]

/-! ## Claim C5 -/

/-- C5: the orchestration never raises: a collaborator exception during
an item (here, a fetch that raises) is absorbed into a `False` item
result instead of propagating, and the returned error list is empty
exactly when every item of all three phases succeeded. -/
theorem claim_C5 :
    (∀ (c : Collab) (s d e : String), c.get_data s = .error e →
      calculate_and_save c s d = ([Ev.fetch s], false))
    ∧ (∀ (c : Collab) (sources : Option (List String)),
        (run_complete_calculation c sources).2 = []
          ↔ (((match sources with
                | none => fa_sectors
                | some l => l).all
                  (fun x => (calculate_and_save c (mkSource x) (mkDest x)).2)
              && stock_indexes.all
                  (fun x => (calculate_and_save c (mkSource x) (mkDest x)).2)
              && (calculate_and_save c (mkSource "all") (mkDest "all")).2) = true)) := by
  constructor
  · intro c s d e h
    unfold calculate_and_save calcBody
    rw [h]
  · intro c sources
    unfold run_complete_calculation calculate_for_sectors calculate_for_indexes calculate_for_all
    cases sources with
    | none =>
      cases hall : (calculate_and_save c (mkSource "all") (mkDest "all")).2 with
      | true => simp [phase_errors_nil, hall]
      | false => simp [phase_errors_nil, hall]
    | some l =>
      cases hall : (calculate_and_save c (mkSource "all") (mkDest "all")).2 with
      | true => simp [phase_errors_nil, hall]
      | false => simp [phase_errors_nil, hall]

theorem claim_C5_witness :
    calculate_and_save c5collab "AAA - energy.csv" "AAA_energy"
      = ([Ev.fetch "AAA - energy.csv"], false) :=
  claim_C5.1 c5collab "AAA - energy.csv" "AAA_energy" "boom" rfl

/-! ## Claim C6 -/

/-- C6: when the fetched table is empty the pipeline fails immediately:
no backup, no save, no scoring — the trace holds the fetch alone and the
result is `False`. -/
theorem claim_C6 (c : Collab) (s d : String) (df : DataFrame)
    (h1 : c.get_data s = .ok df) (h2 : df.empty = true) :
    calculate_and_save c s d = ([Ev.fetch s], false) := by
  simp [calculate_and_save, calcBody, h1, h2]

theorem claim_C6_witness :
    calculate_and_save c6collab "AAA - energy.csv" "AAA_energy"
      = ([Ev.fetch "AAA - energy.csv"], false) :=
  claim_C6 c6collab "AAA - energy.csv" "AAA_energy" ⟨[]⟩ rfl rfl

/-! ## Claim C7 -/

/-- C7: a backup failure (the backup collaborator returning a failure
flag) never aborts the pipeline and never surfaces as an item error:
the save is still invoked afterwards, and the item result is exactly
the boolean the saver returns — in particular the item fails when the
saver returns false even though the backup outcome was success. -/
theorem claim_C7 (c : Collab) (s d : String) (df aaa : DataFrame)
    (bs b : Bool) (msg : String)
    (h1 : c.get_data s = .ok df) (h2 : df.empty = false)
    (h3 : aaaOf df = .ok aaa) (h4 : c.backup_data d = .ok (bs, msg))
    (h5 : c.save_data aaa d = .ok b) :
    calculate_and_save c s d = ([Ev.fetch s, Ev.backup d, Ev.save d], b) := by
  simp [calculate_and_save, calcBody, h1, h2, h3, h4, h5]

/-- Witness for C7: after the failed backup the save is still invoked
and the item result is the saver's `false`. -/
theorem claim_C7_witness :
    calculate_and_save c7collab "AAA - energy.csv" "AAA_energy"
      = ([Ev.fetch "AAA - energy.csv", Ev.backup "AAA_energy", Ev.save "AAA_energy"], false) :=
  claim_C7 c7collab "AAA - energy.csv" "AAA_energy" c7df c7aaa false false "disk full"
    rfl rfl rfl rfl rfl

/-! ## Association-list lemmas for DataFrame columns -/

lemma getCol_eq_lookupC (df : DataFrame) (n : String) : df.getCol n = lookupC df.cols n := rfl

lemma setCol_cols (df : DataFrame) (n : String) (c : Col) :
    (df.setCol n c).cols =
      if nameBound df.cols n then df.cols.map (fun p => if p.1 == n then (n, c) else p)
      else df.cols ++ [(n, c)] := by
  unfold DataFrame.setCol nameBound
  split <;> rfl

lemma lookupC_nil (n : String) : lookupC [] n = none := rfl

lemma lookupC_cons (m : String) (c : Col) (L : List (String × Col)) (n : String) :
    lookupC ((m, c) :: L) n = if m == n then some c else lookupC L n := by
  unfold lookupC
  rw [List.find?_cons]
  by_cases h : (m == n) = true
  · simp [h]
  · simp [h]

lemma nameBound_append (A B : List (String × Col)) (n : String) :
    nameBound (A ++ B) n = (nameBound A n || nameBound B n) := by
  simp [nameBound, List.any_append]

lemma nameBound_cons (m : String) (c : Col) (L : List (String × Col)) (n : String) :
    nameBound ((m, c) :: L) n = ((m == n) || nameBound L n) := by
  simp [nameBound]

lemma nameBound_false_iff (L : List (String × Col)) (n : String) :
    nameBound L n = false ↔ ∀ p ∈ L, p.1 ≠ n := by
  unfold nameBound
  rw [← Bool.not_eq_true, List.any_eq_true]
  constructor
  · intro h p hp hne
    exact h ⟨p, hp, by simp [hne]⟩
  · rintro h ⟨p, hp, hpn⟩
    exact h p hp (by simpa using hpn)

lemma lookupC_isSome_of_bound (L : List (String × Col)) (n : String)
    (h : nameBound L n = true) : ∃ c, lookupC L n = some c := by
  unfold nameBound at h
  rw [List.any_eq_true] at h
  obtain ⟨p, hp, hpn⟩ := h
  have : (L.find? (fun p => p.1 == n)).isSome = true :=
    List.find?_isSome.mpr ⟨p, hp, hpn⟩
  unfold lookupC
  cases hf : L.find? (fun p => p.1 == n) with
  | none => rw [hf] at this; simp at this
  | some q => exact ⟨q.2, rfl⟩

lemma lookupC_none_of_unbound (L : List (String × Col)) (n : String)
    (h : nameBound L n = false) : lookupC L n = none := by
  unfold lookupC
  cases hf : L.find? (fun p => p.1 == n) with
  | none => rfl
  | some q =>
    have hq := List.find?_some hf
    have hmem := List.mem_of_find?_eq_some hf
    rw [nameBound_false_iff] at h
    exact absurd (by simpa using hq) (h q hmem)

lemma lookupC_append_right (A B : List (String × Col)) (n : String)
    (h : nameBound A n = false) : lookupC (A ++ B) n = lookupC B n := by
  induction A with
  | nil => rfl
  | cons p A ih =>
    obtain ⟨m, c⟩ := p
    rw [nameBound_cons] at h
    rcases Bool.or_eq_false_iff.mp h with ⟨h1, h2⟩
    rw [List.cons_append, lookupC_cons, if_neg (by simp [h1]), ih h2]

lemma lookupC_append_left (A B : List (String × Col)) (n : String)
    (h : nameBound A n = true) : lookupC (A ++ B) n = lookupC A n := by
  induction A with
  | nil => simp [nameBound] at h
  | cons p A ih =>
    obtain ⟨m, c⟩ := p
    rw [List.cons_append, lookupC_cons, lookupC_cons]
    by_cases hm : (m == n) = true
    · rw [if_pos hm, if_pos hm]
    · rw [if_neg hm, if_neg hm]
      rw [nameBound_cons, Bool.or_eq_true] at h
      rcases h with h | h
      · exact absurd h hm
      · exact ih h

lemma lookupC_of_mem_nodup (L : List (String × Col)) (n : String) (c : Col)
    (hnd : (L.map Prod.fst).Nodup) (hmem : (n, c) ∈ L) : lookupC L n = some c := by
  induction L with
  | nil => simp at hmem
  | cons p L ih =>
    obtain ⟨m, c'⟩ := p
    rw [List.map_cons, List.nodup_cons] at hnd
    rcases List.mem_cons.mp hmem with h | h
    · obtain ⟨rfl, rfl⟩ := Prod.mk.injEq .. ▸ h
      · rw [lookupC_cons, if_pos (by simp)]
    · have hmn : m ≠ n := by
        intro hEq
        subst hEq
        exact hnd.1 (List.mem_map.mpr ⟨(m, c), h, rfl⟩)
      rw [lookupC_cons, if_neg (by simp [hmn]), ih hnd.2 h]

lemma replace_map_id (L : List (String × Col)) (n : String) (c : Col)
    (h : ∀ p ∈ L, p.1 ≠ n) :
    L.map (fun p => if p.1 == n then (n, c) else p) = L := by
  induction L with
  | nil => rfl
  | cons p L ih =>
    rw [List.map_cons, if_neg (by simp [h p (List.mem_cons_self p L)]),
      ih (fun q hq => h q (List.mem_cons_of_mem p hq))]

/-- Assigning a name that is fresh for `base` keeps `base` as a prefix
and only touches the tail; every tail entry is an old one or the new
binding. -/
lemma setCol_base_extend (base extra : List (String × Col)) (n : String) (c : Col)
    (hb : nameBound base n = false) :
    ∃ extra2, (DataFrame.mk (base ++ extra)).setCol n c = ⟨base ++ extra2⟩
      ∧ (∀ p ∈ extra2, p ∈ extra ∨ p = (n, c)) := by
  have hbase_ne : ∀ p ∈ base, p.1 ≠ n := (nameBound_false_iff base n).mp hb
  by_cases hbound : nameBound (base ++ extra) n = true
  · refine ⟨extra.map (fun p => if p.1 == n then (n, c) else p), ?_, ?_⟩
    · unfold DataFrame.setCol
      rw [if_pos (by simpa [nameBound] using hbound)]
      rw [List.map_append, replace_map_id base n c hbase_ne]
    · intro p hp
      rcases List.mem_map.mp hp with ⟨q, hq, hqe⟩
      by_cases hqn : (q.1 == n) = true
      · right; rw [← hqe, if_pos hqn]
      · left; rw [← hqe, if_neg hqn]; exact hq
  · refine ⟨extra ++ [(n, c)], ?_, ?_⟩
    · unfold DataFrame.setCol
      rw [if_neg (by simpa [nameBound] using hbound)]
      rw [List.append_assoc]
    · intro p hp
      rcases List.mem_append.mp hp with h | h
      · exact Or.inl h
      · right; simpa using h

lemma lookupC_replace_self (L : List (String × Col)) (n : String) (c : Col)
    (h : nameBound L n = true) :
    lookupC (L.map (fun p => if p.1 == n then (n, c) else p)) n = some c := by
  induction L with
  | nil => simp [nameBound] at h
  | cons p L ih =>
    obtain ⟨m, c'⟩ := p
    by_cases hm : (m == n) = true
    · rw [List.map_cons, if_pos hm, lookupC_cons, if_pos (by simp)]
    · rw [List.map_cons, if_neg hm, lookupC_cons, if_neg hm]
      rw [nameBound_cons, Bool.or_eq_true] at h
      rcases h with h | h
      · exact absurd h hm
      · exact ih h

lemma lookupC_replace_ne (L : List (String × Col)) (n : String) (c : Col) (m : String)
    (h : m ≠ n) :
    lookupC (L.map (fun p => if p.1 == n then (n, c) else p)) m = lookupC L m := by
  induction L with
  | nil => rfl
  | cons p L ih =>
    obtain ⟨a, b⟩ := p
    by_cases ha : (a == n) = true
    · rw [List.map_cons, if_pos ha, lookupC_cons, lookupC_cons,
        if_neg (by simp [Ne.symm h]), if_neg (by simp [(eq_of_beq ha) ▸ Ne.symm h]), ih]
    · rw [List.map_cons, if_neg ha, lookupC_cons, lookupC_cons]
      by_cases ham : (a == m) = true
      · rw [if_pos ham, if_pos ham]
      · rw [if_neg ham, if_neg ham, ih]

lemma getCol_setCol_self (df : DataFrame) (n : String) (c : Col) :
    (df.setCol n c).getCol n = some c := by
  rw [getCol_eq_lookupC, setCol_cols]
  by_cases hb : nameBound df.cols n = true
  · rw [if_pos hb]
    exact lookupC_replace_self df.cols n c hb
  · rw [if_neg hb]
    rw [lookupC_append_right _ _ _ (by simpa using hb), lookupC_cons, if_pos (by simp)]

lemma getCol_setCol_ne (df : DataFrame) (n : String) (c : Col) (m : String) (h : m ≠ n) :
    (df.setCol n c).getCol m = df.getCol m := by
  rw [getCol_eq_lookupC, getCol_eq_lookupC, setCol_cols]
  by_cases hb : nameBound df.cols n = true
  · rw [if_pos hb]
    exact lookupC_replace_ne df.cols n c m h
  · rw [if_neg hb]
    by_cases hm : nameBound df.cols m = true
    · exact lookupC_append_left _ _ _ hm
    · rw [lookupC_append_right _ _ _ (by simpa using hm), lookupC_cons,
        if_neg (by simp [Ne.symm h]), lookupC_nil,
        lookupC_none_of_unbound _ _ (by simpa using hm)]

lemma nameBound_replace (L : List (String × Col)) (n : String) (c : Col) (t : String) :
    nameBound (L.map (fun p => if p.1 == n then (n, c) else p)) t = nameBound L t := by
  induction L with
  | nil => rfl
  | cons p L ih =>
    obtain ⟨a, b⟩ := p
    by_cases ha : (a == n) = true
    · rw [List.map_cons, if_pos ha, nameBound_cons, nameBound_cons, ih, eq_of_beq ha]
    · rw [List.map_cons, if_neg ha, nameBound_cons, nameBound_cons, ih]

lemma nameBound_setCol_mono (df : DataFrame) (n : String) (c : Col) (t : String)
    (h : nameBound df.cols t = true) : nameBound (df.setCol n c).cols t = true := by
  rw [setCol_cols]
  by_cases hb : nameBound df.cols n = true
  · rw [if_pos hb, nameBound_replace, h]
  · rw [if_neg hb, nameBound_append, h, Bool.true_or]

/-! ## String-pattern lemmas -/

lemma data_score_pat : "score - ".data = scorePat := rfl

lemma isPrefixOf_append_self (l m : List Char) : l.isPrefixOf (l ++ m) = true := by
  induction l with
  | nil => simp [List.isPrefixOf]
  | cons c l ih => simp [List.isPrefixOf, ih]

lemma strStarts_append_self (p s : String) : strStarts (p ++ s) p = true := by
  unfold strStarts
  rw [String.data_append]
  exact isPrefixOf_append_self p.data s.data

lemma string_append_cancel (p a b : String) (h : p ++ a = p ++ b) : a = b := by
  have hd : p.data ++ a.data = p.data ++ b.data := by
    rw [← String.data_append, ← String.data_append, h]
  have h2 := List.append_cancel_left hd
  cases a
  cases b
  exact congrArg String.mk (by simpa using h2)

lemma not_starts_of_contains_false (s : String) (h : containsScorePat s.data = false) :
    strStarts s "score - " = false := by
  unfold strStarts
  rw [data_score_pat]
  cases hd : s.data with
  | nil => rfl
  | cons c l =>
    rw [hd] at h
    unfold containsScorePat at h
    exact (Bool.or_eq_false_iff.mp h).1

lemma data_aaa_pat : "AAA - ".data = aaaPat := rfl

lemma aaa_not_score (n : String) (h : strStarts n "AAA - " = true) :
    strStarts n "score - " = false := by
  unfold strStarts at h ⊢
  rw [data_aaa_pat] at h
  rw [data_score_pat]
  cases hd : n.data with
  | nil => rw [hd] at h; simp [aaaPat, List.isPrefixOf] at h
  | cons c l =>
    rw [hd] at h
    simp only [aaaPat, List.isPrefixOf, Bool.and_eq_true, beq_iff_eq] at h
    obtain ⟨rfl, -⟩ := h
    simp [scorePat, List.isPrefixOf, show ('s' == 'A') = false from rfl]

lemma stripScoreAux_clean (l : List Char) (h : containsScorePat l = false) :
    stripScoreAux l = l := by
  induction l with
  | nil => rfl
  | cons ch rest ih =>
    unfold containsScorePat at h
    rcases Bool.or_eq_false_iff.mp h with ⟨h1, h2⟩
    unfold stripScoreAux
    rw [if_neg (by simp [h1]), ih h2]

/-- `replace('score - ', '')` applied to a freshly built score-column
name returns the raw column name, provided the raw name itself holds no
occurrence of the pattern. -/
lemma pyReplaceScore_prefixed (c : String) (h : containsScorePat c.data = false) :
    pyReplaceScore ("score - " ++ c) = c := by
  unfold pyReplaceScore
  rw [String.data_append, data_score_pat]
  have hstep : stripScoreAux (scorePat ++ c.data) = stripScoreAux c.data := by
    show stripScoreAux ('s' :: 'c' :: 'o' :: 'r' :: 'e' :: ' ' :: '-' :: ' ' :: c.data)
      = stripScoreAux c.data
    rw [stripScoreAux]
    rw [if_pos (show scorePat.isPrefixOf
      ('s' :: 'c' :: 'o' :: 'r' :: 'e' :: ' ' :: '-' :: ' ' :: c.data) = true
      from isPrefixOf_append_self scorePat c.data)]
  rw [hstep, stripScoreAux_clean c.data h]

/-! ## Invariants for the scoring and aggregation stages -/

lemma extraOK_nil : ExtraOK [] := by
  intro p hp
  simp at hp

/-- Names bound in an `ExtraOK` tail all start with `"score - "` or
`"AAA - "`, so a well-formed raw name is never bound there. -/
lemma extra_name_starts (extra : List (String × Col)) (hex : ExtraOK extra)
    (p : String × Col) (hp : p ∈ extra) :
    strStarts p.1 "score - " = true ∨ strStarts p.1 "AAA - " = true := by
  rcases hex p hp with ⟨c0, l, hn, -, -⟩ | ⟨g0, l, hn, -, -⟩
  · left; rw [hn]; exact strStarts_append_self _ _
  · right; rw [hn]; exact strStarts_append_self _ _

/-- A raw (GoodBase) name is never bound in an `ExtraOK` tail. -/
lemma base_name_not_in_extra (extra : List (String × Col)) (hex : ExtraOK extra)
    (n : String) (hn1 : containsScorePat n.data = false) (hn2 : strStarts n "AAA - " = false) :
    nameBound extra n = false := by
  rw [nameBound_false_iff]
  intro p hp hpn
  rcases extra_name_starts extra hex p hp with h | h
  · rw [hpn] at h
    rw [not_starts_of_contains_false n hn1] at h
    exact Bool.false_ne_true h
  · rw [hpn] at h
    rw [hn2] at h
    exact Bool.false_ne_true h

/-- A freshly built score-column name is never bound among GoodBase
raw columns. -/
lemma score_name_not_in_base (base : List (String × Col))
    (hbase : ∀ p ∈ base, GoodBase p) (c0 : String) :
    nameBound base ("score - " ++ c0) = false := by
  rw [nameBound_false_iff]
  intro p hp hpn
  have h1 := (hbase p hp).1
  have hns := not_starts_of_contains_false p.1 h1
  rw [hpn, strStarts_append_self] at hns
  simp at hns

/-- A grade-column name is never bound among GoodBase raw columns. -/
lemma aaa_name_not_in_base (base : List (String × Col))
    (hbase : ∀ p ∈ base, GoodBase p) (g0 : String) :
    nameBound base ("AAA - " ++ g0) = false := by
  rw [nameBound_false_iff]
  intro p hp hpn
  have h2 := (hbase p hp).2.1
  rw [hpn, strStarts_append_self] at h2
  simp at h2

lemma lookupC_mem (L : List (String × Col)) (n : String) (c : Col)
    (h : lookupC L n = some c) : ∃ p ∈ L, p.1 = n ∧ p.2 = c := by
  unfold lookupC at h
  cases hf : L.find? (fun p => p.1 == n) with
  | none => rw [hf] at h; simp at h
  | some q =>
    rw [hf] at h
    refine ⟨q, List.mem_of_find?_eq_some hf, ?_, ?_⟩
    · simpa using List.find?_some hf
    · simpa using h

lemma bound_of_lookup (L : List (String × Col)) (n : String) (c : Col)
    (h : lookupC L n = some c) : nameBound L n = true := by
  obtain ⟨p, hp, hpn, -⟩ := lookupC_mem L n c h
  unfold nameBound
  rw [List.any_eq_true]
  exact ⟨p, hp, by simp [hpn]⟩

lemma mem_names_iff_bound (L : List (String × Col)) (n : String) :
    n ∈ L.map Prod.fst ↔ nameBound L n = true := by
  unfold nameBound
  rw [List.any_eq_true, List.mem_map]
  constructor
  · rintro ⟨p, hp, rfl⟩
    exact ⟨p, hp, by simp⟩
  · rintro ⟨p, hp, hpn⟩
    exact ⟨p, hp, by simpa using hpn⟩

/-- Master lemma for the scoring loop of `_set_grade`: folding
`scoreOne` over distinct raw float-column names succeeds, keeps the raw
table as a verbatim prefix, extends only by well-formed derived
columns, leaves all other columns untouched, and stores for every
processed non-excluded column its min-max score — inverted exactly for
the five valuation metrics. -/
lemma scoreFold (base : List (String × Col)) (hbase : ∀ p ∈ base, GoodBase p) :
    ∀ (todo : List String), todo.Nodup →
      (∀ x ∈ todo, ∃ l, lookupC base x = some (Col.fcol l)) →
      ∀ (acc : DataFrame) (extra : List (String × Col)),
        acc.cols = base ++ extra → ExtraOK extra →
        ∃ (out : DataFrame) (extra2 : List (String × Col)),
          todo.foldlM scoreOne acc = .ok out
          ∧ out.cols = base ++ extra2 ∧ ExtraOK extra2
          ∧ (∀ t : String, (∀ x ∈ todo, "score - " ++ x ≠ t) → out.getCol t = acc.getCol t)
          ∧ (∀ x ∈ todo, ∀ l, lookupC base x = some (Col.fcol l) → x ∉ excludedCols →
              out.getCol ("score - " ++ x) = some (Col.fcol
                (if x ∈ valuation_metrics then invScaledCol l else scaledCol l))) := by
  intro todo
  induction todo with
  | nil =>
    intro hnd htodo acc extra hacc hex
    refine ⟨acc, extra, rfl, hacc, hex, fun t ht => rfl, fun x hx => absurd hx (by simp)⟩
  | cons x rest ih =>
    intro hnd htodo acc extra hacc hex
    have hndr := (List.nodup_cons.mp hnd).2
    have hxnr : x ∉ rest := (List.nodup_cons.mp hnd).1
    obtain ⟨lx, hlx⟩ := htodo x (List.mem_cons_self x rest)
    obtain ⟨q, hqmem, hqn, hqc⟩ := lookupC_mem base x (Col.fcol lx) hlx
    have hxgood : GoodBase q := hbase q hqmem
    have hxcontains : containsScorePat x.data = false := hqn ▸ hxgood.1
    have hxaaa : strStarts x "AAA - " = false := hqn ▸ hxgood.2.1
    have hxlower : sLower x = x := hqn ▸ hxgood.2.2
    have hget : acc.getCol x = some (Col.fcol lx) := by
      rw [getCol_eq_lookupC, hacc,
        lookupC_append_left _ _ _ (bound_of_lookup base x (Col.fcol lx) hlx), hlx]
    by_cases hexc : x ∈ excludedCols
    · have hstep : scoreOne acc x = .ok acc := by
        unfold scoreOne
        rw [if_pos hexc]
      obtain ⟨out, extra2, hfold, hcols, hex2, hpres, hper⟩ :=
        ih hndr (fun y hy => htodo y (List.mem_cons_of_mem x hy)) acc extra hacc hex
      refine ⟨out, extra2, ?_, hcols, hex2, ?_, ?_⟩
      · rw [List.foldlM_cons, hstep]
        simpa using hfold
      · intro t ht
        exact hpres t (fun y hy => ht y (List.mem_cons_of_mem x hy))
      · intro y hy l hl hyexc
        rcases List.mem_cons.mp hy with rfl | hy
        · exact absurd hexc hyexc
        · exact hper y hy l hl hyexc
    · -- the real write
      obtain ⟨cols⟩ := acc
      simp only at hacc
      subst hacc
      have hGS : GoodSuffix x := by
        refine ⟨?_, ?_, hxcontains, hxlower⟩
        · intro hEq; exact hexc (by rw [hEq]; simp [excludedCols])
        · intro hEq; exact hexc (by rw [hEq]; simp [excludedCols])
      have hfresh := score_name_not_in_base base hbase x
      by_cases hv : x ∈ valuation_metrics
      · have hstep : scoreOne ⟨base ++ extra⟩ x
            = .ok ((⟨base ++ extra⟩ : DataFrame).setCol ("score - " ++ x)
                (Col.fcol (invScaledCol lx))) := by
          simp [scoreOne, hexc, hget, hv]
        obtain ⟨extraA, hcolsA, hmemA⟩ :=
          setCol_base_extend base extra ("score - " ++ x) (Col.fcol (invScaledCol lx)) hfresh
        have hexA : ExtraOK extraA := by
          intro p hp
          rcases hmemA p hp with h | h
          · exact hex p h
          · left
            exact ⟨x, invScaledCol lx, by rw [h], hGS, by rw [h]⟩
        obtain ⟨out, extra2, hfold, hcols, hex2, hpres, hper⟩ :=
          ih hndr (fun y hy => htodo y (List.mem_cons_of_mem x hy))
            ((⟨base ++ extra⟩ : DataFrame).setCol ("score - " ++ x) (Col.fcol (invScaledCol lx)))
            extraA (congrArg DataFrame.cols hcolsA) hexA
        refine ⟨out, extra2, ?_, hcols, hex2, ?_, ?_⟩
        · rw [List.foldlM_cons, hstep]
          simpa using hfold
        · intro t ht
          rw [hpres t (fun y hy => ht y (List.mem_cons_of_mem x hy))]
          exact getCol_setCol_ne _ _ _ t
            (fun hEq => ht x (List.mem_cons_self x rest) hEq.symm)
        · intro y hy l hl hyexc
          rcases List.mem_cons.mp hy with rfl | hy
          · have hll : l = lx := by
              rw [hlx] at hl
              simpa using hl.symm
            subst hll
            rw [hpres ("score - " ++ y) (fun z hz hEq =>
              hxnr (by rwa [string_append_cancel "score - " z y hEq] at hz))]
            rw [getCol_setCol_self, if_pos hv]
          · exact hper y hy l hl hyexc
      · have hstep : scoreOne ⟨base ++ extra⟩ x
            = .ok ((⟨base ++ extra⟩ : DataFrame).setCol ("score - " ++ x)
                (Col.fcol (scaledCol lx))) := by
          simp [scoreOne, hexc, hget, hv, hxlower]
        obtain ⟨extraA, hcolsA, hmemA⟩ :=
          setCol_base_extend base extra ("score - " ++ x) (Col.fcol (scaledCol lx)) hfresh
        have hexA : ExtraOK extraA := by
          intro p hp
          rcases hmemA p hp with h | h
          · exact hex p h
          · left
            exact ⟨x, scaledCol lx, by rw [h], hGS, by rw [h]⟩
        obtain ⟨out, extra2, hfold, hcols, hex2, hpres, hper⟩ :=
          ih hndr (fun y hy => htodo y (List.mem_cons_of_mem x hy))
            ((⟨base ++ extra⟩ : DataFrame).setCol ("score - " ++ x) (Col.fcol (scaledCol lx)))
            extraA (congrArg DataFrame.cols hcolsA) hexA
        refine ⟨out, extra2, ?_, hcols, hex2, ?_, ?_⟩
        · rw [List.foldlM_cons, hstep]
          simpa using hfold
        · intro t ht
          rw [hpres t (fun y hy => ht y (List.mem_cons_of_mem x hy))]
          exact getCol_setCol_ne _ _ _ t
            (fun hEq => ht x (List.mem_cons_self x rest) hEq.symm)
        · intro y hy l hl hyexc
          rcases List.mem_cons.mp hy with rfl | hy
          · have hll : l = lx := by
              rw [hlx] at hl
              simpa using hl.symm
            subst hll
            rw [hpres ("score - " ++ y) (fun z hz hEq =>
              hxnr (by rwa [string_append_cancel "score - " z y hEq] at hz))]
            rw [getCol_setCol_self, if_neg hv]
          · exact hper y hy l hl hyexc

/-- A score-prefixed name is never bound among GoodBase raw columns. -/
lemma scoreish_not_in_base (base : List (String × Col))
    (hbase : ∀ p ∈ base, GoodBase p) (x : String)
    (hx : strStarts x "score - " = true) : nameBound base x = false := by
  rw [nameBound_false_iff]
  intro p hp hpn
  have h1 := not_starts_of_contains_false p.1 (hbase p hp).1
  rw [hpn, hx] at h1
  simp at h1

/-- Master lemma for the grading loop of `_set_grade`: folding
`gradeOne` over a column-name snapshot succeeds, keeps the raw table as
a verbatim prefix, extends only by well-formed derived columns, and
leaves every non-grade column untouched. -/
lemma gradeFold (base : List (String × Col)) (hbase : ∀ p ∈ base, GoodBase p) :
    ∀ (todo : List String) (acc : DataFrame) (extra : List (String × Col)),
      acc.cols = base ++ extra → ExtraOK extra →
      (∀ x ∈ todo, strStarts x "score - " = true → nameBound (base ++ extra) x = true) →
      ∃ (out : DataFrame) (extra2 : List (String × Col)),
        todo.foldlM gradeOne acc = .ok out
        ∧ out.cols = base ++ extra2 ∧ ExtraOK extra2
        ∧ (∀ t : String, strStarts t "AAA - " = false → out.getCol t = acc.getCol t) := by
  intro todo
  induction todo with
  | nil =>
    intro acc extra hacc hex htodo
    exact ⟨acc, extra, rfl, hacc, hex, fun t ht => rfl⟩
  | cons x rest ih =>
    intro acc extra hacc hex htodo
    obtain ⟨cols⟩ := acc
    simp only at hacc
    subst hacc
    by_cases hscx : strStarts x "score - " = true
    · -- a score column: write its grade column
      have hboundx := htodo x (List.mem_cons_self x rest) hscx
      have hbasex := scoreish_not_in_base base hbase x hscx
      have hboundex : nameBound extra x = true := by
        rw [nameBound_append, hbasex, Bool.false_or] at hboundx
        exact hboundx
      obtain ⟨c, hc⟩ := lookupC_isSome_of_bound extra x hboundex
      obtain ⟨p, hpmem, hpn, hpc⟩ := lookupC_mem extra x c hc
      rcases hex p hpmem with ⟨c0, l, hn, hgs, hcol⟩ | ⟨g0, l, hn, hgs, hcol⟩
      · -- fcol score column, compute the grade
        have hxc0 : x = "score - " ++ c0 := hpn ▸ hn
        have hgetx : (⟨base ++ extra⟩ : DataFrame).getCol x = some (Col.fcol l) := by
          rw [getCol_eq_lookupC]
          show lookupC (base ++ extra) x = some (Col.fcol l)
          rw [lookupC_append_right _ _ _ hbasex, hc, ← hpc, hcol]
        have hgname : "AAA - " ++ sLower (pyReplaceScore x) = "AAA - " ++ c0 := by
          rw [hxc0, pyReplaceScore_prefixed c0 hgs.2.2.1, hgs.2.2.2]
        have hstep : gradeOne ⟨base ++ extra⟩ x
            = .ok ((⟨base ++ extra⟩ : DataFrame).setCol ("AAA - " ++ c0)
                (Col.scol (l.map convert_to_grade))) := by
          unfold gradeOne
          rw [if_pos hscx, hgetx, hgname]
        obtain ⟨extraA, hcolsA, hmemA⟩ :=
          setCol_base_extend base extra ("AAA - " ++ c0)
            (Col.scol (l.map convert_to_grade)) (aaa_name_not_in_base base hbase c0)
        have hexA : ExtraOK extraA := by
          intro r hr
          rcases hmemA r hr with h | h
          · exact hex r h
          · right
            exact ⟨c0, l, by rw [h], hgs, by rw [h]⟩
        have htodoA : ∀ y ∈ rest, strStarts y "score - " = true →
            nameBound (base ++ extraA) y = true := by
          intro y hy hsy
          have hold := htodo y (List.mem_cons_of_mem x hy) hsy
          have := nameBound_setCol_mono ⟨base ++ extra⟩ ("AAA - " ++ c0)
            (Col.scol (l.map convert_to_grade)) y hold
          rwa [hcolsA] at this
        obtain ⟨out, extra2, hfold, hcols, hex2, hpres⟩ :=
          ih ((⟨base ++ extra⟩ : DataFrame).setCol ("AAA - " ++ c0)
              (Col.scol (l.map convert_to_grade)))
            extraA (congrArg DataFrame.cols hcolsA) hexA htodoA
        refine ⟨out, extra2, ?_, hcols, hex2, ?_⟩
        · rw [List.foldlM_cons, hstep]
          simpa using hfold
        · intro t ht
          rw [hpres t ht]
          refine getCol_setCol_ne _ _ _ t (fun hEq => ?_)
          rw [hEq, strStarts_append_self] at ht
          simp at ht
      · -- impossible: a score-prefixed name cannot carry an AAA prefix
        exfalso
        have hx : x = "AAA - " ++ g0 := by rw [← hpn, hn]
        have h1 : strStarts x "AAA - " = true := by
          rw [hx]
          exact strStarts_append_self _ _
        have h2 := aaa_not_score x h1
        rw [hscx] at h2
        simp at h2
    · -- not a score column: no write
      have hstep : gradeOne ⟨base ++ extra⟩ x = .ok ⟨base ++ extra⟩ := by
        unfold gradeOne
        rw [if_neg hscx]
      obtain ⟨out, extra2, hfold, hcols, hex2, hpres⟩ :=
        ih ⟨base ++ extra⟩ extra rfl hex
          (fun y hy hsy => htodo y (List.mem_cons_of_mem x hy) hsy)
      refine ⟨out, extra2, ?_, hcols, hex2, hpres⟩
      rw [List.foldlM_cons, hstep]
      simpa using hfold

/-- A `"score - "`-prefixed name never carries the `"AAA - "` prefix. -/
lemma score_not_aaa (n : String) (h : strStarts n "score - " = true) :
    strStarts n "AAA - " = false := by
  unfold strStarts at h ⊢
  rw [data_score_pat] at h
  rw [data_aaa_pat]
  cases hd : n.data with
  | nil => rw [hd] at h; simp [scorePat, List.isPrefixOf] at h
  | cons c l =>
    rw [hd] at h
    simp only [scorePat, List.isPrefixOf, Bool.and_eq_true, beq_iff_eq] at h
    obtain ⟨rfl, -⟩ := h
    simp [aaaPat, List.isPrefixOf, show ('A' == 's') = false from rfl]

lemma mem_floatNames (df : DataFrame) (x : String) :
    x ∈ df.floatNames ↔ ∃ l, (x, Col.fcol l) ∈ df.cols := by
  unfold DataFrame.floatNames
  rw [List.mem_filterMap]
  constructor
  · rintro ⟨p, hp, hpx⟩
    obtain ⟨n, c⟩ := p
    cases c with
    | fcol l =>
      have hnx : n = x := by simpa using hpx
      exact ⟨l, by rwa [hnx] at hp⟩
    | scol l => simp at hpx
  · rintro ⟨l, hl⟩
    exact ⟨(x, Col.fcol l), hl, rfl⟩

lemma floatNames_sublist (df : DataFrame) :
    df.floatNames.Sublist (df.cols.map Prod.fst) := by
  unfold DataFrame.floatNames
  induction df.cols with
  | nil => simp
  | cons p L ih =>
    obtain ⟨n, c⟩ := p
    cases c with
    | fcol l => simpa using ih.cons₂ n
    | scol l => simpa using ih.cons n

/-- Full specification of `_set_grade` on a well-formed raw table. -/
lemma set_grade_spec (df : DataFrame)
    (hbase : ∀ p ∈ df.cols, GoodBase p)
    (hnd : (df.cols.map Prod.fst).Nodup) :
    ∃ (out : DataFrame) (extra : List (String × Col)),
      set_grade df = .ok out ∧ out.cols = df.cols ++ extra ∧ ExtraOK extra
      ∧ (∀ t : String, (∀ x ∈ df.floatNames, "score - " ++ x ≠ t) →
          strStarts t "AAA - " = false → out.getCol t = df.getCol t)
      ∧ (∀ (x : String) (l : List F), lookupC df.cols x = some (Col.fcol l) →
          x ∉ excludedCols →
          out.getCol ("score - " ++ x) = some (Col.fcol
            (if x ∈ valuation_metrics then invScaledCol l else scaledCol l))) := by
  have hndf : df.floatNames.Nodup := (floatNames_sublist df).nodup hnd
  have htodo : ∀ x ∈ df.floatNames, ∃ l, lookupC df.cols x = some (Col.fcol l) := by
    intro x hx
    obtain ⟨l, hl⟩ := (mem_floatNames df x).mp hx
    exact ⟨l, lookupC_of_mem_nodup df.cols x (Col.fcol l) hnd hl⟩
  obtain ⟨df1, extra1, hfold1, hcols1, hex1, hpres1, hper1⟩ :=
    scoreFold df.cols hbase df.floatNames hndf htodo df [] (by simp) extraOK_nil
  have htodo2 : ∀ x ∈ df1.columns, strStarts x "score - " = true →
      nameBound (df.cols ++ extra1) x = true := by
    intro x hx hsx
    rw [← hcols1]
    exact (mem_names_iff_bound df1.cols x).mp hx
  obtain ⟨out, extra2, hfold2, hcols2, hex2, hpres2⟩ :=
    gradeFold df.cols hbase df1.columns df1 extra1 hcols1 hex1 htodo2
  refine ⟨out, extra2, ?_, hcols2, hex2, ?_, ?_⟩
  · unfold set_grade
    rw [hfold1]
    simpa using hfold2
  · intro t ht htA
    rw [hpres2 t htA, hpres1 t ht]
  · intro x l hl hexc
    have hxf : x ∈ df.floatNames := by
      obtain ⟨p, hp, hpn, hpc⟩ := lookupC_mem df.cols x (Col.fcol l) hl
      refine (mem_floatNames df x).mpr ⟨l, ?_⟩
      have : p = (x, Col.fcol l) := by
        obtain ⟨a, b⟩ := p
        simp only at hpn hpc
        rw [hpn, hpc]
      rwa [this] at hp
    rw [hpres2 ("score - " ++ x) (score_not_aaa _ (strStarts_append_self _ _))]
    exact hper1 x hxf l hl hexc

/-- Structure of the three writes every category aggregation performs:
sum column, re-normalized column (same name), grade column. -/
lemma aggStructure (df : DataFrame) (base extra : List (String × Col))
    (hacc : df.cols = base ++ extra)
    (hbase : ∀ p ∈ base, GoodBase p) (hex : ExtraOK extra)
    (c0 : String) (hgs : GoodSuffix c0) (sum scaled : List F) :
    ∃ extra2,
      (((df.setCol ("score - " ++ c0) (Col.fcol sum)).setCol ("score - " ++ c0)
          (Col.fcol scaled)).setCol ("AAA - " ++ c0)
          (Col.scol (scaled.map convert_to_grade))).cols = base ++ extra2
      ∧ ExtraOK extra2
      ∧ (∀ t : String, t ≠ "score - " ++ c0 → t ≠ "AAA - " ++ c0 →
          (((df.setCol ("score - " ++ c0) (Col.fcol sum)).setCol ("score - " ++ c0)
              (Col.fcol scaled)).setCol ("AAA - " ++ c0)
              (Col.scol (scaled.map convert_to_grade))).getCol t = df.getCol t)
      ∧ (((df.setCol ("score - " ++ c0) (Col.fcol sum)).setCol ("score - " ++ c0)
            (Col.fcol scaled)).setCol ("AAA - " ++ c0)
            (Col.scol (scaled.map convert_to_grade))).getCol ("score - " ++ c0)
          = some (Col.fcol scaled)
      ∧ (((df.setCol ("score - " ++ c0) (Col.fcol sum)).setCol ("score - " ++ c0)
            (Col.fcol scaled)).setCol ("AAA - " ++ c0)
            (Col.scol (scaled.map convert_to_grade))).getCol ("AAA - " ++ c0)
          = some (Col.scol (scaled.map convert_to_grade)) := by
  have hsa : ("score - " ++ c0) ≠ ("AAA - " ++ c0) := by
    intro hEq
    have h1 := strStarts_append_self "score - " c0
    rw [hEq] at h1
    have h2 := score_not_aaa _ h1
    rw [strStarts_append_self] at h2
    simp at h2
  obtain ⟨cols⟩ := df
  simp only at hacc
  subst hacc
  obtain ⟨eA, hA, hmA⟩ :=
    setCol_base_extend base extra ("score - " ++ c0) (Col.fcol sum)
      (score_name_not_in_base base hbase c0)
  obtain ⟨eB, hB, hmB⟩ :=
    setCol_base_extend base eA ("score - " ++ c0) (Col.fcol scaled)
      (score_name_not_in_base base hbase c0)
  obtain ⟨eC, hC, hmC⟩ :=
    setCol_base_extend base eB ("AAA - " ++ c0) (Col.scol (scaled.map convert_to_grade))
      (aaa_name_not_in_base base hbase c0)
  have hB2 : ((⟨base ++ extra⟩ : DataFrame).setCol ("score - " ++ c0)
      (Col.fcol sum)).setCol ("score - " ++ c0) (Col.fcol scaled) = ⟨base ++ eB⟩ := by
    rw [hA, hB]
  have hC2 : (((⟨base ++ extra⟩ : DataFrame).setCol ("score - " ++ c0)
      (Col.fcol sum)).setCol ("score - " ++ c0) (Col.fcol scaled)).setCol
      ("AAA - " ++ c0) (Col.scol (scaled.map convert_to_grade)) = ⟨base ++ eC⟩ := by
    rw [hB2, hC]
  have hexC : ExtraOK eC := by
    intro p hp
    rcases hmC p hp with hp2 | hp2
    · rcases hmB p hp2 with hp3 | hp3
      · rcases hmA p hp3 with hp4 | hp4
        · exact hex p hp4
        · left; exact ⟨c0, sum, by rw [hp4], hgs, by rw [hp4]⟩
      · left; exact ⟨c0, scaled, by rw [hp3], hgs, by rw [hp3]⟩
    · right; exact ⟨c0, scaled, by rw [hp2], hgs, by rw [hp2]⟩
  refine ⟨eC, by rw [hC2], hexC, ?_, ?_, ?_⟩
  · intro t ht1 ht2
    rw [getCol_setCol_ne _ _ _ t ht2, getCol_setCol_ne _ _ _ t ht1,
      getCol_setCol_ne _ _ _ t ht1]
  · rw [getCol_setCol_ne _ _ _ _ hsa, getCol_setCol_self]
  · rw [getCol_setCol_self]

lemma hgs_val : GoodSuffix "valuation" := by
  refine ⟨by decide, by decide, by decide, by decide⟩

lemma hgs_prof : GoodSuffix "profitability" := by
  refine ⟨by decide, by decide, by decide, by decide⟩

lemma hgs_grow : GoodSuffix "growth" := by
  refine ⟨by decide, by decide, by decide, by decide⟩

lemma hgs_perf : GoodSuffix "performance" := by
  refine ⟨by decide, by decide, by decide, by decide⟩

lemma hgs_over : GoodSuffix "overall" := by
  refine ⟨by decide, by decide, by decide, by decide⟩

/-- Specification of `_set_valuation_grade`: the category score is the
re-normalized and inverted weighted sum of the five per-metric scores
(weights 1), the grade is derived from that inverted score, and no
other column changes. -/
lemma set_valuation_spec (df : DataFrame) (base extra : List (String × Col))
    (hacc : df.cols = base ++ extra)
    (hbase : ∀ p ∈ base, GoodBase p) (hex : ExtraOK extra)
    (s1 s2 s3 s4 s5 : List F)
    (h1 : df.getCol "score - fwd_p_e" = some (Col.fcol s1))
    (h2 : df.getCol "score - peg" = some (Col.fcol s2))
    (h3 : df.getCol "score - p_s" = some (Col.fcol s3))
    (h4 : df.getCol "score - p_b" = some (Col.fcol s4))
    (h5 : df.getCol "score - p_fcf" = some (Col.fcol s5)) :
    ∃ (out : DataFrame) (extra2 : List (String × Col)),
      set_valuation_grade df 1 1 1 1 1 = .ok out
      ∧ out.cols = base ++ extra2 ∧ ExtraOK extra2
      ∧ (∀ t : String, t ≠ "score - valuation" → t ≠ "AAA - valuation" →
          out.getCol t = df.getCol t)
      ∧ out.getCol "score - valuation"
          = some (Col.fcol (invScaledCol (wsum5 s1 s2 s3 s4 s5 1 1 1 1 1)))
      ∧ out.getCol "AAA - valuation"
          = some (Col.scol ((invScaledCol (wsum5 s1 s2 s3 s4 s5 1 1 1 1 1)).map
              convert_to_grade)) := by
  obtain ⟨extra2, hcols, hex2, hpres, hsc, haaa⟩ :=
    aggStructure df base extra hacc hbase hex "valuation" hgs_val
      (wsum5 s1 s2 s3 s4 s5 1 1 1 1 1)
      (invScaledCol (wsum5 s1 s2 s3 s4 s5 1 1 1 1 1))
  refine ⟨_, extra2, ?_, hcols, hex2, hpres, hsc, haaa⟩
  simp only [set_valuation_grade, getFCol, h1, h2, h3, h4, h5, bind, Except.bind,
    getCol_setCol_self]
  rfl

/-- Specification of `_set_profitability_grade`: re-normalized weighted
sum, no inversion. -/
lemma set_profitability_spec (df : DataFrame) (base extra : List (String × Col))
    (hacc : df.cols = base ++ extra)
    (hbase : ∀ p ∈ base, GoodBase p) (hex : ExtraOK extra)
    (s1 s2 s3 s4 s5 : List F)
    (h1 : df.getCol "score - profit_m" = some (Col.fcol s1))
    (h2 : df.getCol "score - oper_m" = some (Col.fcol s2))
    (h3 : df.getCol "score - gross_m" = some (Col.fcol s3))
    (h4 : df.getCol "score - roe" = some (Col.fcol s4))
    (h5 : df.getCol "score - roa" = some (Col.fcol s5)) :
    ∃ (out : DataFrame) (extra2 : List (String × Col)),
      set_profitability_grade df 1 1 1 1 1 = .ok out
      ∧ out.cols = base ++ extra2 ∧ ExtraOK extra2
      ∧ (∀ t : String, t ≠ "score - profitability" → t ≠ "AAA - profitability" →
          out.getCol t = df.getCol t)
      ∧ out.getCol "score - profitability"
          = some (Col.fcol (scaledCol (wsum5 s1 s2 s3 s4 s5 1 1 1 1 1)))
      ∧ out.getCol "AAA - profitability"
          = some (Col.scol ((scaledCol (wsum5 s1 s2 s3 s4 s5 1 1 1 1 1)).map
              convert_to_grade)) := by
  obtain ⟨extra2, hcols, hex2, hpres, hsc, haaa⟩ :=
    aggStructure df base extra hacc hbase hex "profitability" hgs_prof
      (wsum5 s1 s2 s3 s4 s5 1 1 1 1 1)
      (scaledCol (wsum5 s1 s2 s3 s4 s5 1 1 1 1 1))
  refine ⟨_, extra2, ?_, hcols, hex2, hpres, hsc, haaa⟩
  simp only [set_profitability_grade, getFCol, h1, h2, h3, h4, h5, bind, Except.bind,
    getCol_setCol_self]
  rfl

/-- Specification of `_set_growth_grade`: re-normalized weighted sum,
no inversion. -/
lemma set_growth_spec (df : DataFrame) (base extra : List (String × Col))
    (hacc : df.cols = base ++ extra)
    (hbase : ∀ p ∈ base, GoodBase p) (hex : ExtraOK extra)
    (s1 s2 s3 s4 s5 : List F)
    (h1 : df.getCol "score - eps_this_y" = some (Col.fcol s1))
    (h2 : df.getCol "score - eps_next_y" = some (Col.fcol s2))
    (h3 : df.getCol "score - eps_next_5y" = some (Col.fcol s3))
    (h4 : df.getCol "score - sales_q_q" = some (Col.fcol s4))
    (h5 : df.getCol "score - eps_q_q" = some (Col.fcol s5)) :
    ∃ (out : DataFrame) (extra2 : List (String × Col)),
      set_growth_grade df 1 1 1 1 1 = .ok out
      ∧ out.cols = base ++ extra2 ∧ ExtraOK extra2
      ∧ (∀ t : String, t ≠ "score - growth" → t ≠ "AAA - growth" →
          out.getCol t = df.getCol t)
      ∧ out.getCol "score - growth"
          = some (Col.fcol (scaledCol (wsum5 s1 s2 s3 s4 s5 1 1 1 1 1)))
      ∧ out.getCol "AAA - growth"
          = some (Col.scol ((scaledCol (wsum5 s1 s2 s3 s4 s5 1 1 1 1 1)).map
              convert_to_grade)) := by
  obtain ⟨extra2, hcols, hex2, hpres, hsc, haaa⟩ :=
    aggStructure df base extra hacc hbase hex "growth" hgs_grow
      (wsum5 s1 s2 s3 s4 s5 1 1 1 1 1)
      (scaledCol (wsum5 s1 s2 s3 s4 s5 1 1 1 1 1))
  refine ⟨_, extra2, ?_, hcols, hex2, hpres, hsc, haaa⟩
  simp only [set_growth_grade, getFCol, h1, h2, h3, h4, h5, bind, Except.bind,
    getCol_setCol_self]
  rfl

/-- Specification of `_set_performance_grade`: six metrics,
re-normalized weighted sum, no inversion. -/
lemma set_performance_spec (df : DataFrame) (base extra : List (String × Col))
    (hacc : df.cols = base ++ extra)
    (hbase : ∀ p ∈ base, GoodBase p) (hex : ExtraOK extra)
    (s1 s2 s3 s4 s5 s6 : List F)
    (h1 : df.getCol "score - perf_month" = some (Col.fcol s1))
    (h2 : df.getCol "score - perf_quart" = some (Col.fcol s2))
    (h3 : df.getCol "score - perf_half" = some (Col.fcol s3))
    (h4 : df.getCol "score - perf_year" = some (Col.fcol s4))
    (h5 : df.getCol "score - perf_ytd" = some (Col.fcol s5))
    (h6 : df.getCol "score - volatility_m" = some (Col.fcol s6)) :
    ∃ (out : DataFrame) (extra2 : List (String × Col)),
      set_performance_grade df 1 1 1 1 1 1 = .ok out
      ∧ out.cols = base ++ extra2 ∧ ExtraOK extra2
      ∧ (∀ t : String, t ≠ "score - performance" → t ≠ "AAA - performance" →
          out.getCol t = df.getCol t)
      ∧ out.getCol "score - performance"
          = some (Col.fcol (scaledCol (serAdd (wsum5 s1 s2 s3 s4 s5 1 1 1 1 1) (serMul s6 1))))
      ∧ out.getCol "AAA - performance"
          = some (Col.scol ((scaledCol (serAdd (wsum5 s1 s2 s3 s4 s5 1 1 1 1 1)
              (serMul s6 1))).map convert_to_grade)) := by
  obtain ⟨extra2, hcols, hex2, hpres, hsc, haaa⟩ :=
    aggStructure df base extra hacc hbase hex "performance" hgs_perf
      (serAdd (wsum5 s1 s2 s3 s4 s5 1 1 1 1 1) (serMul s6 1))
      (scaledCol (serAdd (wsum5 s1 s2 s3 s4 s5 1 1 1 1 1) (serMul s6 1)))
  refine ⟨_, extra2, ?_, hcols, hex2, hpres, hsc, haaa⟩
  simp only [set_performance_grade, getFCol, h1, h2, h3, h4, h5, h6, bind, Except.bind,
    getCol_setCol_self]
  rfl

/-- Specification of `_set_overall_rating`: re-normalized weighted sum
of the four category scores, no inversion. -/
lemma set_overall_spec (df : DataFrame) (base extra : List (String × Col))
    (hacc : df.cols = base ++ extra)
    (hbase : ∀ p ∈ base, GoodBase p) (hex : ExtraOK extra)
    (s1 s2 s3 s4 : List F)
    (h1 : df.getCol "score - valuation" = some (Col.fcol s1))
    (h2 : df.getCol "score - profitability" = some (Col.fcol s2))
    (h3 : df.getCol "score - growth" = some (Col.fcol s3))
    (h4 : df.getCol "score - performance" = some (Col.fcol s4)) :
    ∃ (out : DataFrame) (extra2 : List (String × Col)),
      set_overall_rating df 1 1 1 1 = .ok out
      ∧ out.cols = base ++ extra2 ∧ ExtraOK extra2
      ∧ (∀ t : String, t ≠ "score - overall" → t ≠ "AAA - overall" →
          out.getCol t = df.getCol t)
      ∧ out.getCol "score - overall"
          = some (Col.fcol (scaledCol (wsum4 s1 s2 s3 s4 1 1 1 1)))
      ∧ out.getCol "AAA - overall"
          = some (Col.scol ((scaledCol (wsum4 s1 s2 s3 s4 1 1 1 1)).map
              convert_to_grade)) := by
  obtain ⟨extra2, hcols, hex2, hpres, hsc, haaa⟩ :=
    aggStructure df base extra hacc hbase hex "overall" hgs_over
      (wsum4 s1 s2 s3 s4 1 1 1 1)
      (scaledCol (wsum4 s1 s2 s3 s4 1 1 1 1))
  refine ⟨_, extra2, ?_, hcols, hex2, hpres, hsc, haaa⟩
  simp only [set_overall_rating, getFCol, h1, h2, h3, h4, bind, Except.bind,
    getCol_setCol_self]
  rfl

/-- Specification of `_make_aaa_calculation` over a table holding the 21
per-metric score columns: four category scores (valuation inverted
after re-normalization, the others not) and the overall score, each
with its grade column, leaving every other column untouched. -/
lemma make_aaa_spec (df : DataFrame) (base extra : List (String × Col))
    (hacc : df.cols = base ++ extra)
    (hbase : ∀ p ∈ base, GoodBase p) (hex : ExtraOK extra)
    (v1 v2 v3 v4 v5 q1 q2 q3 q4 q5 g1 g2 g3 g4 g5 f1 f2 f3 f4 f5 f6 : List F)
    (hv1 : df.getCol "score - fwd_p_e" = some (Col.fcol v1))
    (hv2 : df.getCol "score - peg" = some (Col.fcol v2))
    (hv3 : df.getCol "score - p_s" = some (Col.fcol v3))
    (hv4 : df.getCol "score - p_b" = some (Col.fcol v4))
    (hv5 : df.getCol "score - p_fcf" = some (Col.fcol v5))
    (hq1 : df.getCol "score - profit_m" = some (Col.fcol q1))
    (hq2 : df.getCol "score - oper_m" = some (Col.fcol q2))
    (hq3 : df.getCol "score - gross_m" = some (Col.fcol q3))
    (hq4 : df.getCol "score - roe" = some (Col.fcol q4))
    (hq5 : df.getCol "score - roa" = some (Col.fcol q5))
    (hg1 : df.getCol "score - eps_this_y" = some (Col.fcol g1))
    (hg2 : df.getCol "score - eps_next_y" = some (Col.fcol g2))
    (hg3 : df.getCol "score - eps_next_5y" = some (Col.fcol g3))
    (hg4 : df.getCol "score - sales_q_q" = some (Col.fcol g4))
    (hg5 : df.getCol "score - eps_q_q" = some (Col.fcol g5))
    (hf1 : df.getCol "score - perf_month" = some (Col.fcol f1))
    (hf2 : df.getCol "score - perf_quart" = some (Col.fcol f2))
    (hf3 : df.getCol "score - perf_half" = some (Col.fcol f3))
    (hf4 : df.getCol "score - perf_year" = some (Col.fcol f4))
    (hf5 : df.getCol "score - perf_ytd" = some (Col.fcol f5))
    (hf6 : df.getCol "score - volatility_m" = some (Col.fcol f6)) :
    ∃ (out : DataFrame) (extra2 : List (String × Col)),
      make_aaa_calculation df = .ok out
      ∧ out.cols = base ++ extra2 ∧ ExtraOK extra2
      ∧ (∀ t : String, t ∉ aggNames → out.getCol t = df.getCol t)
      ∧ out.getCol "score - valuation"
          = some (Col.fcol (invScaledCol (wsum5 v1 v2 v3 v4 v5 1 1 1 1 1)))
      ∧ out.getCol "AAA - valuation"
          = some (Col.scol ((invScaledCol (wsum5 v1 v2 v3 v4 v5 1 1 1 1 1)).map
              convert_to_grade))
      ∧ out.getCol "score - profitability"
          = some (Col.fcol (scaledCol (wsum5 q1 q2 q3 q4 q5 1 1 1 1 1)))
      ∧ out.getCol "score - growth"
          = some (Col.fcol (scaledCol (wsum5 g1 g2 g3 g4 g5 1 1 1 1 1)))
      ∧ out.getCol "score - performance"
          = some (Col.fcol (scaledCol (serAdd (wsum5 f1 f2 f3 f4 f5 1 1 1 1 1) (serMul f6 1))))
      ∧ out.getCol "score - overall"
          = some (Col.fcol (scaledCol (wsum4
              (invScaledCol (wsum5 v1 v2 v3 v4 v5 1 1 1 1 1))
              (scaledCol (wsum5 q1 q2 q3 q4 q5 1 1 1 1 1))
              (scaledCol (wsum5 g1 g2 g3 g4 g5 1 1 1 1 1))
              (scaledCol (serAdd (wsum5 f1 f2 f3 f4 f5 1 1 1 1 1) (serMul f6 1)))
              1 1 1 1)))
      ∧ out.getCol "AAA - overall"
          = some (Col.scol ((scaledCol (wsum4
              (invScaledCol (wsum5 v1 v2 v3 v4 v5 1 1 1 1 1))
              (scaledCol (wsum5 q1 q2 q3 q4 q5 1 1 1 1 1))
              (scaledCol (wsum5 g1 g2 g3 g4 g5 1 1 1 1 1))
              (scaledCol (serAdd (wsum5 f1 f2 f3 f4 f5 1 1 1 1 1) (serMul f6 1)))
              1 1 1 1)).map convert_to_grade)) := by
  obtain ⟨d1, e1, heq1, hcols1, hex1, hpres1, hval1, haaa1⟩ :=
    set_valuation_spec df base extra hacc hbase hex v1 v2 v3 v4 v5 hv1 hv2 hv3 hv4 hv5
  obtain ⟨d2, e2, heq2, hcols2, hex2, hpres2, hprof2, haaa2⟩ :=
    set_profitability_spec d1 base e1 hcols1 hbase hex1 q1 q2 q3 q4 q5
      (by rw [hpres1 _ (by decide) (by decide)]; exact hq1)
      (by rw [hpres1 _ (by decide) (by decide)]; exact hq2)
      (by rw [hpres1 _ (by decide) (by decide)]; exact hq3)
      (by rw [hpres1 _ (by decide) (by decide)]; exact hq4)
      (by rw [hpres1 _ (by decide) (by decide)]; exact hq5)
  obtain ⟨d3, e3, heq3, hcols3, hex3, hpres3, hgrow3, haaa3⟩ :=
    set_growth_spec d2 base e2 hcols2 hbase hex2 g1 g2 g3 g4 g5
      (by rw [hpres2 _ (by decide) (by decide), hpres1 _ (by decide) (by decide)]; exact hg1)
      (by rw [hpres2 _ (by decide) (by decide), hpres1 _ (by decide) (by decide)]; exact hg2)
      (by rw [hpres2 _ (by decide) (by decide), hpres1 _ (by decide) (by decide)]; exact hg3)
      (by rw [hpres2 _ (by decide) (by decide), hpres1 _ (by decide) (by decide)]; exact hg4)
      (by rw [hpres2 _ (by decide) (by decide), hpres1 _ (by decide) (by decide)]; exact hg5)
  obtain ⟨d4, e4, heq4, hcols4, hex4, hpres4, hperf4, haaa4⟩ :=
    set_performance_spec d3 base e3 hcols3 hbase hex3 f1 f2 f3 f4 f5 f6
      (by rw [hpres3 _ (by decide) (by decide), hpres2 _ (by decide) (by decide),
        hpres1 _ (by decide) (by decide)]; exact hf1)
      (by rw [hpres3 _ (by decide) (by decide), hpres2 _ (by decide) (by decide),
        hpres1 _ (by decide) (by decide)]; exact hf2)
      (by rw [hpres3 _ (by decide) (by decide), hpres2 _ (by decide) (by decide),
        hpres1 _ (by decide) (by decide)]; exact hf3)
      (by rw [hpres3 _ (by decide) (by decide), hpres2 _ (by decide) (by decide),
        hpres1 _ (by decide) (by decide)]; exact hf4)
      (by rw [hpres3 _ (by decide) (by decide), hpres2 _ (by decide) (by decide),
        hpres1 _ (by decide) (by decide)]; exact hf5)
      (by rw [hpres3 _ (by decide) (by decide), hpres2 _ (by decide) (by decide),
        hpres1 _ (by decide) (by decide)]; exact hf6)
  obtain ⟨d5, e5, heq5, hcols5, hex5, hpres5, hover5, haaa5⟩ :=
    set_overall_spec d4 base e4 hcols4 hbase hex4
      (invScaledCol (wsum5 v1 v2 v3 v4 v5 1 1 1 1 1))
      (scaledCol (wsum5 q1 q2 q3 q4 q5 1 1 1 1 1))
      (scaledCol (wsum5 g1 g2 g3 g4 g5 1 1 1 1 1))
      (scaledCol (serAdd (wsum5 f1 f2 f3 f4 f5 1 1 1 1 1) (serMul f6 1)))
      (by rw [hpres4 _ (by decide) (by decide), hpres3 _ (by decide) (by decide),
        hpres2 _ (by decide) (by decide)]; exact hval1)
      (by rw [hpres4 _ (by decide) (by decide), hpres3 _ (by decide) (by decide)]; exact hprof2)
      (by rw [hpres4 _ (by decide) (by decide)]; exact hgrow3)
      (by exact hperf4)
  refine ⟨d5, e5, ?_, hcols5, hex5, ?_, ?_, ?_, ?_, ?_, ?_, hover5, haaa5⟩
  · simp only [make_aaa_calculation, heq1, heq2, heq3, heq4, heq5, bind, Except.bind]
  · intro t ht
    have h1 : t ≠ "score - valuation" := by intro hEq; exact ht (by rw [hEq]; simp [aggNames])
    have h2 : t ≠ "AAA - valuation" := by intro hEq; exact ht (by rw [hEq]; simp [aggNames])
    have h3 : t ≠ "score - profitability" := by intro hEq; exact ht (by rw [hEq]; simp [aggNames])
    have h4 : t ≠ "AAA - profitability" := by intro hEq; exact ht (by rw [hEq]; simp [aggNames])
    have h5 : t ≠ "score - growth" := by intro hEq; exact ht (by rw [hEq]; simp [aggNames])
    have h6 : t ≠ "AAA - growth" := by intro hEq; exact ht (by rw [hEq]; simp [aggNames])
    have h7 : t ≠ "score - performance" := by intro hEq; exact ht (by rw [hEq]; simp [aggNames])
    have h8 : t ≠ "AAA - performance" := by intro hEq; exact ht (by rw [hEq]; simp [aggNames])
    have h9 : t ≠ "score - overall" := by intro hEq; exact ht (by rw [hEq]; simp [aggNames])
    have h10 : t ≠ "AAA - overall" := by intro hEq; exact ht (by rw [hEq]; simp [aggNames])
    rw [hpres5 t h9 h10, hpres4 t h7 h8, hpres3 t h5 h6, hpres2 t h3 h4, hpres1 t h1 h2]
  · rw [hpres5 _ (by decide) (by decide), hpres4 _ (by decide) (by decide),
      hpres3 _ (by decide) (by decide), hpres2 _ (by decide) (by decide)]
    exact hval1
  · rw [hpres5 _ (by decide) (by decide), hpres4 _ (by decide) (by decide),
      hpres3 _ (by decide) (by decide), hpres2 _ (by decide) (by decide)]
    exact haaa1
  · rw [hpres5 _ (by decide) (by decide), hpres4 _ (by decide) (by decide),
      hpres3 _ (by decide) (by decide)]
    exact hprof2
  · rw [hpres5 _ (by decide) (by decide), hpres4 _ (by decide) (by decide)]
    exact hgrow3
  · rw [hpres5 _ (by decide) (by decide)]
    exact hperf4

/-- Full specification of the scoring stages
`_set_grade` followed by `_make_aaa_calculation` on a well-formed
metrics table holding the 21 raw metric columns. -/
lemma pipeline_spec (df : DataFrame)
    (hbase : ∀ p ∈ df.cols, GoodBase p)
    (hnd : (df.cols.map Prod.fst).Nodup)
    (v1 v2 v3 v4 v5 q1 q2 q3 q4 q5 g1 g2 g3 g4 g5 f1 f2 f3 f4 f5 f6 : List F)
    (hv1 : lookupC df.cols "fwd_p_e" = some (Col.fcol v1))
    (hv2 : lookupC df.cols "peg" = some (Col.fcol v2))
    (hv3 : lookupC df.cols "p_s" = some (Col.fcol v3))
    (hv4 : lookupC df.cols "p_b" = some (Col.fcol v4))
    (hv5 : lookupC df.cols "p_fcf" = some (Col.fcol v5))
    (hq1 : lookupC df.cols "profit_m" = some (Col.fcol q1))
    (hq2 : lookupC df.cols "oper_m" = some (Col.fcol q2))
    (hq3 : lookupC df.cols "gross_m" = some (Col.fcol q3))
    (hq4 : lookupC df.cols "roe" = some (Col.fcol q4))
    (hq5 : lookupC df.cols "roa" = some (Col.fcol q5))
    (hg1 : lookupC df.cols "eps_this_y" = some (Col.fcol g1))
    (hg2 : lookupC df.cols "eps_next_y" = some (Col.fcol g2))
    (hg3 : lookupC df.cols "eps_next_5y" = some (Col.fcol g3))
    (hg4 : lookupC df.cols "sales_q_q" = some (Col.fcol g4))
    (hg5 : lookupC df.cols "eps_q_q" = some (Col.fcol g5))
    (hf1 : lookupC df.cols "perf_month" = some (Col.fcol f1))
    (hf2 : lookupC df.cols "perf_quart" = some (Col.fcol f2))
    (hf3 : lookupC df.cols "perf_half" = some (Col.fcol f3))
    (hf4 : lookupC df.cols "perf_year" = some (Col.fcol f4))
    (hf5 : lookupC df.cols "perf_ytd" = some (Col.fcol f5))
    (hf6 : lookupC df.cols "volatility_m" = some (Col.fcol f6)) :
    ∃ (out : DataFrame) (extra : List (String × Col)),
      (set_grade df).bind make_aaa_calculation = .ok out
      ∧ out.cols = df.cols ++ extra ∧ ExtraOK extra
      ∧ out.getCol "score - fwd_p_e" = some (Col.fcol (invScaledCol v1))
      ∧ out.getCol "score - peg" = some (Col.fcol (invScaledCol v2))
      ∧ out.getCol "score - p_s" = some (Col.fcol (invScaledCol v3))
      ∧ out.getCol "score - p_b" = some (Col.fcol (invScaledCol v4))
      ∧ out.getCol "score - p_fcf" = some (Col.fcol (invScaledCol v5))
      ∧ out.getCol "score - roe" = some (Col.fcol (scaledCol q4))
      ∧ out.getCol "score - valuation"
          = some (Col.fcol (invScaledCol (wsum5 (invScaledCol v1) (invScaledCol v2)
              (invScaledCol v3) (invScaledCol v4) (invScaledCol v5) 1 1 1 1 1)))
      ∧ out.getCol "AAA - valuation"
          = some (Col.scol ((invScaledCol (wsum5 (invScaledCol v1) (invScaledCol v2)
              (invScaledCol v3) (invScaledCol v4) (invScaledCol v5) 1 1 1 1 1)).map
              convert_to_grade))
      ∧ out.getCol "score - profitability"
          = some (Col.fcol (scaledCol (wsum5 (scaledCol q1) (scaledCol q2) (scaledCol q3)
              (scaledCol q4) (scaledCol q5) 1 1 1 1 1)))
      ∧ out.getCol "score - growth"
          = some (Col.fcol (scaledCol (wsum5 (scaledCol g1) (scaledCol g2) (scaledCol g3)
              (scaledCol g4) (scaledCol g5) 1 1 1 1 1)))
      ∧ out.getCol "score - performance"
          = some (Col.fcol (scaledCol (serAdd (wsum5 (scaledCol f1) (scaledCol f2)
              (scaledCol f3) (scaledCol f4) (scaledCol f5) 1 1 1 1 1)
              (serMul (scaledCol f6) 1))))
      ∧ out.getCol "score - overall"
          = some (Col.fcol (scaledCol (wsum4
              (invScaledCol (wsum5 (invScaledCol v1) (invScaledCol v2) (invScaledCol v3)
                (invScaledCol v4) (invScaledCol v5) 1 1 1 1 1))
              (scaledCol (wsum5 (scaledCol q1) (scaledCol q2) (scaledCol q3)
                (scaledCol q4) (scaledCol q5) 1 1 1 1 1))
              (scaledCol (wsum5 (scaledCol g1) (scaledCol g2) (scaledCol g3)
                (scaledCol g4) (scaledCol g5) 1 1 1 1 1))
              (scaledCol (serAdd (wsum5 (scaledCol f1) (scaledCol f2) (scaledCol f3)
                (scaledCol f4) (scaledCol f5) 1 1 1 1 1) (serMul (scaledCol f6) 1)))
              1 1 1 1))) := by
  obtain ⟨o1, extra1, hsg, hcols1, hex1, hpres1, hper1⟩ := set_grade_spec df hbase hnd
  have hS1 : o1.getCol "score - fwd_p_e" = some (Col.fcol (invScaledCol v1)) := by
    have h := hper1 "fwd_p_e" v1 hv1 (by decide)
    rw [if_pos (by decide)] at h
    exact h
  have hS2 : o1.getCol "score - peg" = some (Col.fcol (invScaledCol v2)) := by
    have h := hper1 "peg" v2 hv2 (by decide)
    rw [if_pos (by decide)] at h
    exact h
  have hS3 : o1.getCol "score - p_s" = some (Col.fcol (invScaledCol v3)) := by
    have h := hper1 "p_s" v3 hv3 (by decide)
    rw [if_pos (by decide)] at h
    exact h
  have hS4 : o1.getCol "score - p_b" = some (Col.fcol (invScaledCol v4)) := by
    have h := hper1 "p_b" v4 hv4 (by decide)
    rw [if_pos (by decide)] at h
    exact h
  have hS5 : o1.getCol "score - p_fcf" = some (Col.fcol (invScaledCol v5)) := by
    have h := hper1 "p_fcf" v5 hv5 (by decide)
    rw [if_pos (by decide)] at h
    exact h
  have hT1 : o1.getCol "score - profit_m" = some (Col.fcol (scaledCol q1)) := by
    have h := hper1 "profit_m" q1 hq1 (by decide)
    rw [if_neg (by decide)] at h
    exact h
  have hT2 : o1.getCol "score - oper_m" = some (Col.fcol (scaledCol q2)) := by
    have h := hper1 "oper_m" q2 hq2 (by decide)
    rw [if_neg (by decide)] at h
    exact h
  have hT3 : o1.getCol "score - gross_m" = some (Col.fcol (scaledCol q3)) := by
    have h := hper1 "gross_m" q3 hq3 (by decide)
    rw [if_neg (by decide)] at h
    exact h
  have hT4 : o1.getCol "score - roe" = some (Col.fcol (scaledCol q4)) := by
    have h := hper1 "roe" q4 hq4 (by decide)
    rw [if_neg (by decide)] at h
    exact h
  have hT5 : o1.getCol "score - roa" = some (Col.fcol (scaledCol q5)) := by
    have h := hper1 "roa" q5 hq5 (by decide)
    rw [if_neg (by decide)] at h
    exact h
  have hU1 : o1.getCol "score - eps_this_y" = some (Col.fcol (scaledCol g1)) := by
    have h := hper1 "eps_this_y" g1 hg1 (by decide)
    rw [if_neg (by decide)] at h
    exact h
  have hU2 : o1.getCol "score - eps_next_y" = some (Col.fcol (scaledCol g2)) := by
    have h := hper1 "eps_next_y" g2 hg2 (by decide)
    rw [if_neg (by decide)] at h
    exact h
  have hU3 : o1.getCol "score - eps_next_5y" = some (Col.fcol (scaledCol g3)) := by
    have h := hper1 "eps_next_5y" g3 hg3 (by decide)
    rw [if_neg (by decide)] at h
    exact h
  have hU4 : o1.getCol "score - sales_q_q" = some (Col.fcol (scaledCol g4)) := by
    have h := hper1 "sales_q_q" g4 hg4 (by decide)
    rw [if_neg (by decide)] at h
    exact h
  have hU5 : o1.getCol "score - eps_q_q" = some (Col.fcol (scaledCol g5)) := by
    have h := hper1 "eps_q_q" g5 hg5 (by decide)
    rw [if_neg (by decide)] at h
    exact h
  have hW1 : o1.getCol "score - perf_month" = some (Col.fcol (scaledCol f1)) := by
    have h := hper1 "perf_month" f1 hf1 (by decide)
    rw [if_neg (by decide)] at h
    exact h
  have hW2 : o1.getCol "score - perf_quart" = some (Col.fcol (scaledCol f2)) := by
    have h := hper1 "perf_quart" f2 hf2 (by decide)
    rw [if_neg (by decide)] at h
    exact h
  have hW3 : o1.getCol "score - perf_half" = some (Col.fcol (scaledCol f3)) := by
    have h := hper1 "perf_half" f3 hf3 (by decide)
    rw [if_neg (by decide)] at h
    exact h
  have hW4 : o1.getCol "score - perf_year" = some (Col.fcol (scaledCol f4)) := by
    have h := hper1 "perf_year" f4 hf4 (by decide)
    rw [if_neg (by decide)] at h
    exact h
  have hW5 : o1.getCol "score - perf_ytd" = some (Col.fcol (scaledCol f5)) := by
    have h := hper1 "perf_ytd" f5 hf5 (by decide)
    rw [if_neg (by decide)] at h
    exact h
  have hW6 : o1.getCol "score - volatility_m" = some (Col.fcol (scaledCol f6)) := by
    have h := hper1 "volatility_m" f6 hf6 (by decide)
    rw [if_neg (by decide)] at h
    exact h
  obtain ⟨out, extra2, hmk, hcols2, hex2, hpres2, hsv, hav, hsp, hsgrow, hsperf, hso, hao⟩ :=
    make_aaa_spec o1 df.cols extra1 hcols1 hbase hex1
      (invScaledCol v1) (invScaledCol v2) (invScaledCol v3) (invScaledCol v4) (invScaledCol v5)
      (scaledCol q1) (scaledCol q2) (scaledCol q3) (scaledCol q4) (scaledCol q5)
      (scaledCol g1) (scaledCol g2) (scaledCol g3) (scaledCol g4) (scaledCol g5)
      (scaledCol f1) (scaledCol f2) (scaledCol f3) (scaledCol f4) (scaledCol f5) (scaledCol f6)
      hS1 hS2 hS3 hS4 hS5 hT1 hT2 hT3 hT4 hT5 hU1 hU2 hU3 hU4 hU5 hW1 hW2 hW3 hW4 hW5 hW6
  refine ⟨out, extra2, ?_, hcols2, hex2, ?_, ?_, ?_, ?_, ?_, ?_, hsv, hav, hsp, hsgrow, hsperf, hso⟩
  · rw [hsg]
    simpa using hmk
  · rw [hpres2 _ (by decide)]; exact hS1
  · rw [hpres2 _ (by decide)]; exact hS2
  · rw [hpres2 _ (by decide)]; exact hS3
  · rw [hpres2 _ (by decide)]; exact hS4
  · rw [hpres2 _ (by decide)]; exact hS5
  · rw [hpres2 _ (by decide)]; exact hT4

/-! ## Claim C1 -/

/-- C1: on any well-formed metrics table holding the raw metric columns,
each of the five valuation-metric scores is already inverted per metric
(10 minus the min-max scaled raw value, `invScaledCol`), their weighted
sum with all weights 1.0 is re-normalized across rows via
`scale_to_10` and the valuation category score is 10 minus that
re-normalized value (`invScaledCol` again — a double inversion); the
valuation grade is derived from this inverted score.  The
profitability, growth, performance and overall aggregations apply
`scaledCol` with no inversion. -/
theorem claim_C1 (df : DataFrame)
    (hbase : ∀ p ∈ df.cols, GoodBase p)
    (hnd : (df.cols.map Prod.fst).Nodup)
    (v1 v2 v3 v4 v5 q1 q2 q3 q4 q5 g1 g2 g3 g4 g5 f1 f2 f3 f4 f5 f6 : List F)
    (hv1 : lookupC df.cols "fwd_p_e" = some (Col.fcol v1))
    (hv2 : lookupC df.cols "peg" = some (Col.fcol v2))
    (hv3 : lookupC df.cols "p_s" = some (Col.fcol v3))
    (hv4 : lookupC df.cols "p_b" = some (Col.fcol v4))
    (hv5 : lookupC df.cols "p_fcf" = some (Col.fcol v5))
    (hq1 : lookupC df.cols "profit_m" = some (Col.fcol q1))
    (hq2 : lookupC df.cols "oper_m" = some (Col.fcol q2))
    (hq3 : lookupC df.cols "gross_m" = some (Col.fcol q3))
    (hq4 : lookupC df.cols "roe" = some (Col.fcol q4))
    (hq5 : lookupC df.cols "roa" = some (Col.fcol q5))
    (hg1 : lookupC df.cols "eps_this_y" = some (Col.fcol g1))
    (hg2 : lookupC df.cols "eps_next_y" = some (Col.fcol g2))
    (hg3 : lookupC df.cols "eps_next_5y" = some (Col.fcol g3))
    (hg4 : lookupC df.cols "sales_q_q" = some (Col.fcol g4))
    (hg5 : lookupC df.cols "eps_q_q" = some (Col.fcol g5))
    (hf1 : lookupC df.cols "perf_month" = some (Col.fcol f1))
    (hf2 : lookupC df.cols "perf_quart" = some (Col.fcol f2))
    (hf3 : lookupC df.cols "perf_half" = some (Col.fcol f3))
    (hf4 : lookupC df.cols "perf_year" = some (Col.fcol f4))
    (hf5 : lookupC df.cols "perf_ytd" = some (Col.fcol f5))
    (hf6 : lookupC df.cols "volatility_m" = some (Col.fcol f6)) :
    ∃ out : DataFrame,
      (set_grade df).bind make_aaa_calculation = .ok out
      ∧ out.getCol "score - fwd_p_e" = some (Col.fcol (invScaledCol v1))
      ∧ out.getCol "score - peg" = some (Col.fcol (invScaledCol v2))
      ∧ out.getCol "score - p_s" = some (Col.fcol (invScaledCol v3))
      ∧ out.getCol "score - p_b" = some (Col.fcol (invScaledCol v4))
      ∧ out.getCol "score - p_fcf" = some (Col.fcol (invScaledCol v5))
      ∧ out.getCol "score - roe" = some (Col.fcol (scaledCol q4))
      ∧ out.getCol "score - valuation"
          = some (Col.fcol (invScaledCol (wsum5 (invScaledCol v1) (invScaledCol v2)
              (invScaledCol v3) (invScaledCol v4) (invScaledCol v5) 1 1 1 1 1)))
      ∧ out.getCol "AAA - valuation"
          = some (Col.scol ((invScaledCol (wsum5 (invScaledCol v1) (invScaledCol v2)
              (invScaledCol v3) (invScaledCol v4) (invScaledCol v5) 1 1 1 1 1)).map
              convert_to_grade))
      ∧ out.getCol "score - profitability"
          = some (Col.fcol (scaledCol (wsum5 (scaledCol q1) (scaledCol q2) (scaledCol q3)
              (scaledCol q4) (scaledCol q5) 1 1 1 1 1)))
      ∧ out.getCol "score - growth"
          = some (Col.fcol (scaledCol (wsum5 (scaledCol g1) (scaledCol g2) (scaledCol g3)
              (scaledCol g4) (scaledCol g5) 1 1 1 1 1)))
      ∧ out.getCol "score - performance"
          = some (Col.fcol (scaledCol (serAdd (wsum5 (scaledCol f1) (scaledCol f2)
              (scaledCol f3) (scaledCol f4) (scaledCol f5) 1 1 1 1 1)
              (serMul (scaledCol f6) 1))))
      ∧ out.getCol "score - overall"
          = some (Col.fcol (scaledCol (wsum4
              (invScaledCol (wsum5 (invScaledCol v1) (invScaledCol v2) (invScaledCol v3)
                (invScaledCol v4) (invScaledCol v5) 1 1 1 1 1))
              (scaledCol (wsum5 (scaledCol q1) (scaledCol q2) (scaledCol q3)
                (scaledCol q4) (scaledCol q5) 1 1 1 1 1))
              (scaledCol (wsum5 (scaledCol g1) (scaledCol g2) (scaledCol g3)
                (scaledCol g4) (scaledCol g5) 1 1 1 1 1))
              (scaledCol (serAdd (wsum5 (scaledCol f1) (scaledCol f2) (scaledCol f3)
                (scaledCol f4) (scaledCol f5) 1 1 1 1 1) (serMul (scaledCol f6) 1)))
              1 1 1 1))) := by
  obtain ⟨out, extra, heq, hcols, hex, h1, h2, h3, h4, h5, h6, h7, h8, h9, h10, h11, h12⟩ :=
    pipeline_spec df hbase hnd v1 v2 v3 v4 v5 q1 q2 q3 q4 q5 g1 g2 g3 g4 g5 f1 f2 f3 f4 f5 f6
      hv1 hv2 hv3 hv4 hv5 hq1 hq2 hq3 hq4 hq5 hg1 hg2 hg3 hg4 hg5 hf1 hf2 hf3 hf4 hf5 hf6
  exact ⟨out, heq, h1, h2, h3, h4, h5, h6, h7, h8, h9, h10, h11, h12⟩

/-- Witness for C1 on the concrete schema table. -/
theorem claim_C1_witness :
    ∃ out : DataFrame,
      (set_grade c1df).bind make_aaa_calculation = .ok out
      ∧ out.getCol "score - fwd_p_e" = some (Col.fcol (invScaledCol oneColF))
      ∧ out.getCol "score - peg" = some (Col.fcol (invScaledCol oneColF))
      ∧ out.getCol "score - p_s" = some (Col.fcol (invScaledCol oneColF))
      ∧ out.getCol "score - p_b" = some (Col.fcol (invScaledCol oneColF))
      ∧ out.getCol "score - p_fcf" = some (Col.fcol (invScaledCol oneColF))
      ∧ out.getCol "score - roe" = some (Col.fcol (scaledCol oneColF))
      ∧ out.getCol "score - valuation"
          = some (Col.fcol (invScaledCol (wsum5 (invScaledCol oneColF) (invScaledCol oneColF)
              (invScaledCol oneColF) (invScaledCol oneColF) (invScaledCol oneColF) 1 1 1 1 1)))
      ∧ out.getCol "AAA - valuation"
          = some (Col.scol ((invScaledCol (wsum5 (invScaledCol oneColF) (invScaledCol oneColF)
              (invScaledCol oneColF) (invScaledCol oneColF) (invScaledCol oneColF) 1 1 1 1 1)).map
              convert_to_grade))
      ∧ out.getCol "score - profitability"
          = some (Col.fcol (scaledCol (wsum5 (scaledCol oneColF) (scaledCol oneColF)
              (scaledCol oneColF) (scaledCol oneColF) (scaledCol oneColF) 1 1 1 1 1)))
      ∧ out.getCol "score - growth"
          = some (Col.fcol (scaledCol (wsum5 (scaledCol oneColF) (scaledCol oneColF)
              (scaledCol oneColF) (scaledCol oneColF) (scaledCol oneColF) 1 1 1 1 1)))
      ∧ out.getCol "score - performance"
          = some (Col.fcol (scaledCol (serAdd (wsum5 (scaledCol oneColF) (scaledCol oneColF)
              (scaledCol oneColF) (scaledCol oneColF) (scaledCol oneColF) 1 1 1 1 1)
              (serMul (scaledCol oneColF) 1))))
      ∧ out.getCol "score - overall"
          = some (Col.fcol (scaledCol (wsum4
              (invScaledCol (wsum5 (invScaledCol oneColF) (invScaledCol oneColF)
                (invScaledCol oneColF) (invScaledCol oneColF) (invScaledCol oneColF) 1 1 1 1 1))
              (scaledCol (wsum5 (scaledCol oneColF) (scaledCol oneColF) (scaledCol oneColF)
                (scaledCol oneColF) (scaledCol oneColF) 1 1 1 1 1))
              (scaledCol (wsum5 (scaledCol oneColF) (scaledCol oneColF) (scaledCol oneColF)
                (scaledCol oneColF) (scaledCol oneColF) 1 1 1 1 1))
              (scaledCol (serAdd (wsum5 (scaledCol oneColF) (scaledCol oneColF)
                (scaledCol oneColF) (scaledCol oneColF) (scaledCol oneColF) 1 1 1 1 1)
                (serMul (scaledCol oneColF) 1)))
              1 1 1 1))) :=
  claim_C1 c1df (by decide) (by decide)
    oneColF oneColF oneColF oneColF oneColF oneColF oneColF oneColF oneColF oneColF
    oneColF oneColF oneColF oneColF oneColF oneColF oneColF oneColF oneColF oneColF oneColF
    rfl rfl rfl rfl rfl rfl rfl rfl rfl rfl rfl rfl rfl rfl rfl rfl rfl rfl rfl rfl rfl

/-! ## Claim C9 -/

/-- Neither a score nor a grade column for a metadata name can appear in
the output: the raw part cannot hold such names (GoodBase) and the
derived part never receives a metadata suffix (GoodSuffix). -/
lemma no_metadata_derived (base extra : List (String × Col))
    (hbase : ∀ p ∈ base, GoodBase p) (hex : ExtraOK extra)
    (m : String) (hm : m = "_saved_timestamp" ∨ m = "_backup_timestamp") :
    ("score - " ++ m) ∉ (base ++ extra).map Prod.fst
    ∧ ("AAA - " ++ m) ∉ (base ++ extra).map Prod.fst := by
  constructor
  · intro hmem
    obtain ⟨p, hp, hpn⟩ := List.mem_map.mp hmem
    rcases List.mem_append.mp hp with hp | hp
    · have h1 := not_starts_of_contains_false p.1 (hbase p hp).1
      rw [hpn, strStarts_append_self] at h1
      simp at h1
    · rcases hex p hp with ⟨c0, l, hn, hgs, -⟩ | ⟨g0, l, hn, hgs, -⟩
      · have hc0 : c0 = m := string_append_cancel "score - " c0 m (by rw [← hn, hpn])
        rcases hm with rfl | rfl
        · exact hgs.1 hc0
        · exact hgs.2.1 hc0
      · have hA : strStarts p.1 "AAA - " = true := by
          rw [hn]; exact strStarts_append_self _ _
        have hS := aaa_not_score p.1 hA
        rw [hpn, strStarts_append_self] at hS
        simp at hS
  · intro hmem
    obtain ⟨p, hp, hpn⟩ := List.mem_map.mp hmem
    rcases List.mem_append.mp hp with hp | hp
    · have h1 := (hbase p hp).2.1
      rw [hpn, strStarts_append_self] at h1
      simp at h1
    · rcases hex p hp with ⟨c0, l, hn, hgs, -⟩ | ⟨g0, l, hn, hgs, -⟩
      · have hA : strStarts p.1 "score - " = true := by
          rw [hn]; exact strStarts_append_self _ _
        have hS := score_not_aaa p.1 hA
        rw [hpn, strStarts_append_self] at hS
        simp at hS
      · have hg0 : g0 = m := string_append_cancel "AAA - " g0 m (by rw [← hn, hpn])
        rcases hm with rfl | rfl
        · exact hgs.1 hg0
        · exact hgs.2.1 hg0

/-- C9: the scoring and aggregation stages only append new `score - *`
and `AAA - *` columns: every pre-existing column binding — ticker,
metrics and the two metadata columns included — survives verbatim as a
prefix of the output, and the metadata columns never receive a score or
a grade column. -/
theorem claim_C9 (df : DataFrame)
    (hbase : ∀ p ∈ df.cols, GoodBase p)
    (hnd : (df.cols.map Prod.fst).Nodup)
    (v1 v2 v3 v4 v5 q1 q2 q3 q4 q5 g1 g2 g3 g4 g5 f1 f2 f3 f4 f5 f6 : List F)
    (hv1 : lookupC df.cols "fwd_p_e" = some (Col.fcol v1))
    (hv2 : lookupC df.cols "peg" = some (Col.fcol v2))
    (hv3 : lookupC df.cols "p_s" = some (Col.fcol v3))
    (hv4 : lookupC df.cols "p_b" = some (Col.fcol v4))
    (hv5 : lookupC df.cols "p_fcf" = some (Col.fcol v5))
    (hq1 : lookupC df.cols "profit_m" = some (Col.fcol q1))
    (hq2 : lookupC df.cols "oper_m" = some (Col.fcol q2))
    (hq3 : lookupC df.cols "gross_m" = some (Col.fcol q3))
    (hq4 : lookupC df.cols "roe" = some (Col.fcol q4))
    (hq5 : lookupC df.cols "roa" = some (Col.fcol q5))
    (hg1 : lookupC df.cols "eps_this_y" = some (Col.fcol g1))
    (hg2 : lookupC df.cols "eps_next_y" = some (Col.fcol g2))
    (hg3 : lookupC df.cols "eps_next_5y" = some (Col.fcol g3))
    (hg4 : lookupC df.cols "sales_q_q" = some (Col.fcol g4))
    (hg5 : lookupC df.cols "eps_q_q" = some (Col.fcol g5))
    (hf1 : lookupC df.cols "perf_month" = some (Col.fcol f1))
    (hf2 : lookupC df.cols "perf_quart" = some (Col.fcol f2))
    (hf3 : lookupC df.cols "perf_half" = some (Col.fcol f3))
    (hf4 : lookupC df.cols "perf_year" = some (Col.fcol f4))
    (hf5 : lookupC df.cols "perf_ytd" = some (Col.fcol f5))
    (hf6 : lookupC df.cols "volatility_m" = some (Col.fcol f6)) :
    ∃ (out : DataFrame) (extra : List (String × Col)),
      (set_grade df).bind make_aaa_calculation = .ok out
      ∧ out.cols = df.cols ++ extra
      ∧ (∀ p ∈ extra, strStarts p.1 "score - " = true ∨ strStarts p.1 "AAA - " = true)
      ∧ (∀ n ∈ df.cols.map Prod.fst, out.getCol n = df.getCol n)
      ∧ "score - _saved_timestamp" ∉ out.cols.map Prod.fst
      ∧ "AAA - _saved_timestamp" ∉ out.cols.map Prod.fst
      ∧ "score - _backup_timestamp" ∉ out.cols.map Prod.fst
      ∧ "AAA - _backup_timestamp" ∉ out.cols.map Prod.fst := by
  obtain ⟨out, extra, heq, hcols, hex, -⟩ :=
    pipeline_spec df hbase hnd v1 v2 v3 v4 v5 q1 q2 q3 q4 q5 g1 g2 g3 g4 g5 f1 f2 f3 f4 f5 f6
      hv1 hv2 hv3 hv4 hv5 hq1 hq2 hq3 hq4 hq5 hg1 hg2 hg3 hg4 hg5 hf1 hf2 hf3 hf4 hf5 hf6
  have hsaved := no_metadata_derived df.cols extra hbase hex "_saved_timestamp" (Or.inl rfl)
  have hbackup := no_metadata_derived df.cols extra hbase hex "_backup_timestamp" (Or.inr rfl)
  refine ⟨out, extra, heq, hcols, extra_name_starts extra hex, ?_, ?_, ?_, ?_, ?_⟩
  · intro n hn
    rw [getCol_eq_lookupC, getCol_eq_lookupC, hcols]
    exact lookupC_append_left _ _ _ ((mem_names_iff_bound df.cols n).mp hn)
  · rw [hcols]; exact hsaved.1
  · rw [hcols]; exact hsaved.2
  · rw [hcols]; exact hbackup.1
  · rw [hcols]; exact hbackup.2

/-! ## Claim C10 -/

/-- C10: `convert_to_grade` maps a missing score to "F" (every threshold
comparison is false for NaN), its output is always one of the 13
grades, and every `AAA - *` column the pipeline produces is a string
column obtained by mapping `convert_to_grade` over a score column — so
grade cells are never missing even where scores are. -/
theorem claim_C10 (df : DataFrame)
    (hbase : ∀ p ∈ df.cols, GoodBase p)
    (hnd : (df.cols.map Prod.fst).Nodup)
    (v1 v2 v3 v4 v5 q1 q2 q3 q4 q5 g1 g2 g3 g4 g5 f1 f2 f3 f4 f5 f6 : List F)
    (hv1 : lookupC df.cols "fwd_p_e" = some (Col.fcol v1))
    (hv2 : lookupC df.cols "peg" = some (Col.fcol v2))
    (hv3 : lookupC df.cols "p_s" = some (Col.fcol v3))
    (hv4 : lookupC df.cols "p_b" = some (Col.fcol v4))
    (hv5 : lookupC df.cols "p_fcf" = some (Col.fcol v5))
    (hq1 : lookupC df.cols "profit_m" = some (Col.fcol q1))
    (hq2 : lookupC df.cols "oper_m" = some (Col.fcol q2))
    (hq3 : lookupC df.cols "gross_m" = some (Col.fcol q3))
    (hq4 : lookupC df.cols "roe" = some (Col.fcol q4))
    (hq5 : lookupC df.cols "roa" = some (Col.fcol q5))
    (hg1 : lookupC df.cols "eps_this_y" = some (Col.fcol g1))
    (hg2 : lookupC df.cols "eps_next_y" = some (Col.fcol g2))
    (hg3 : lookupC df.cols "eps_next_5y" = some (Col.fcol g3))
    (hg4 : lookupC df.cols "sales_q_q" = some (Col.fcol g4))
    (hg5 : lookupC df.cols "eps_q_q" = some (Col.fcol g5))
    (hf1 : lookupC df.cols "perf_month" = some (Col.fcol f1))
    (hf2 : lookupC df.cols "perf_quart" = some (Col.fcol f2))
    (hf3 : lookupC df.cols "perf_half" = some (Col.fcol f3))
    (hf4 : lookupC df.cols "perf_year" = some (Col.fcol f4))
    (hf5 : lookupC df.cols "perf_ytd" = some (Col.fcol f5))
    (hf6 : lookupC df.cols "volatility_m" = some (Col.fcol f6)) :
    convert_to_grade none = "F"
    ∧ (∀ x : F, convert_to_grade x ∈ grades13)
    ∧ ∃ out : DataFrame,
        (set_grade df).bind make_aaa_calculation = .ok out
        ∧ ∀ p ∈ out.cols, strStarts p.1 "AAA - " = true →
            ∃ scores : List F, p.2 = Col.scol (scores.map convert_to_grade)
              ∧ ∀ s ∈ scores.map convert_to_grade, s ∈ grades13 := by
  refine ⟨rfl, convert_total, ?_⟩
  obtain ⟨out, extra, heq, hcols, hex, -⟩ :=
    pipeline_spec df hbase hnd v1 v2 v3 v4 v5 q1 q2 q3 q4 q5 g1 g2 g3 g4 g5 f1 f2 f3 f4 f5 f6
      hv1 hv2 hv3 hv4 hv5 hq1 hq2 hq3 hq4 hq5 hg1 hg2 hg3 hg4 hg5 hf1 hf2 hf3 hf4 hf5 hf6
  refine ⟨out, heq, ?_⟩
  intro p hp hA
  rw [hcols] at hp
  rcases List.mem_append.mp hp with hp | hp
  · have h1 := (hbase p hp).2.1
    rw [hA] at h1
    simp at h1
  · rcases hex p hp with ⟨c0, l, hn, -, -⟩ | ⟨g0, l, hn, -, hcol⟩
    · have hS : strStarts p.1 "score - " = true := by
        rw [hn]; exact strStarts_append_self _ _
      have h2 := score_not_aaa p.1 hS
      rw [hA] at h2
      simp at h2
    · refine ⟨l, hcol, ?_⟩
      intro s hs
      obtain ⟨x, -, rfl⟩ := List.mem_map.mp hs
      exact convert_total x

/-- Witness for C9 on the concrete schema table. -/
theorem claim_C9_witness :
    ∃ (out : DataFrame) (extra : List (String × Col)),
      (set_grade c9df).bind make_aaa_calculation = .ok out
      ∧ out.cols = c9df.cols ++ extra
      ∧ (∀ p ∈ extra, strStarts p.1 "score - " = true ∨ strStarts p.1 "AAA - " = true)
      ∧ (∀ n ∈ c9df.cols.map Prod.fst, out.getCol n = c9df.getCol n)
      ∧ "score - _saved_timestamp" ∉ out.cols.map Prod.fst
      ∧ "AAA - _saved_timestamp" ∉ out.cols.map Prod.fst
      ∧ "score - _backup_timestamp" ∉ out.cols.map Prod.fst
      ∧ "AAA - _backup_timestamp" ∉ out.cols.map Prod.fst :=
  claim_C9 c9df (by decide) (by decide)
    oneColF oneColF oneColF oneColF oneColF oneColF oneColF oneColF oneColF oneColF
    oneColF oneColF oneColF oneColF oneColF oneColF oneColF oneColF oneColF oneColF oneColF
    rfl rfl rfl rfl rfl rfl rfl rfl rfl rfl rfl rfl rfl rfl rfl rfl rfl rfl rfl rfl rfl

/-- Witness for C10 on the concrete schema table. -/
theorem claim_C10_witness :
    convert_to_grade none = "F"
    ∧ (∀ x : F, convert_to_grade x ∈ grades13)
    ∧ ∃ out : DataFrame,
        (set_grade c10df).bind make_aaa_calculation = .ok out
        ∧ ∀ p ∈ out.cols, strStarts p.1 "AAA - " = true →
            ∃ scores : List F, p.2 = Col.scol (scores.map convert_to_grade)
              ∧ ∀ s ∈ scores.map convert_to_grade, s ∈ grades13 :=
  claim_C10 c10df (by decide) (by decide)
    oneColF oneColF oneColF oneColF oneColF oneColF oneColF oneColF oneColF oneColF
    oneColF oneColF oneColF oneColF oneColF oneColF oneColF oneColF oneColF oneColF oneColF
    rfl rfl rfl rfl rfl rfl rfl rfl rfl rfl rfl rfl rfl rfl rfl rfl rfl rfl rfl rfl rfl
